import Mathlib

/-!
# Sabre3D shader wrapper: `Source/Shader Handling/Shader.cpp`

A shallow embedding of the `Shader` class.  The graphics driver, the file
system and the logging sink are external collaborators; every call made to one
of them is recorded, in order, in a trace of `Event`s, and every answer they
give is taken from an `Env` whose answers may depend on the whole history of
calls made so far.  Reads outside the bounds of an array, of the global
`shaderFileNames` vector or of the info-log buffer have no defined behaviour in
C++ (or end in an exception that nothing catches); the functions that perform
such reads return `none` there, and a run of a function is a result `some`.
-/

namespace Sabre3D

abbrev GLenum := Nat
abbrev GLuint := Nat
abbrev GLint := Int

/-! ## Constants of the graphics API (values of the OpenGL headers) -/

def GL_VERTEX_SHADER : GLenum := 0x8B31
def GL_FRAGMENT_SHADER : GLenum := 0x8B30
def GL_TESS_CONTROL_SHADER : GLenum := 0x8E88
def GL_TESS_EVALUATION_SHADER : GLenum := 0x8E87
def GL_GEOMETRY_SHADER : GLenum := 0x8DD9
def GL_COMPUTE_SHADER : GLenum := 0x91B9
def GL_COMPILE_STATUS : GLenum := 0x8B81
def GL_LINK_STATUS : GLenum := 0x8B82
def GL_INFO_LOG_LENGTH : GLenum := 0x8B84
def GL_TRUE : GLint := 1

/-! ## Observable events -/

/-- One call that leaves the component: a driver call with its arguments (and
its answer, for a call that has one), a file being opened, or a line handed to
the logging sink. -/
inductive Event where
  | glCreateProgram (ret : GLuint)
  | glCreateShader (shaderType : GLenum) (ret : GLuint)
  | glShaderSource (shader : GLuint) (source : String)
  | glCompileShader (shader : GLuint)
  | glGetShaderiv (shader : GLuint) (pname : GLenum) (ret : GLint)
  | glGetProgramiv (program : GLuint) (pname : GLenum) (ret : GLint)
  | glGetShaderInfoLog (shader : GLuint) (bufSize : GLint) (ret : String)
  | glGetProgramInfoLog (program : GLuint) (bufSize : GLint) (ret : String)
  | glAttachShader (program : GLuint) (shader : GLuint)
  | glBindAttribLocation (program : GLuint) (index : Nat) (name : String)
  | glLinkProgram (program : GLuint)
  | glDeleteProgram (program : GLuint)
  | glDeleteShader (shader : GLuint)
  | glUseProgram (program : GLuint)
  | ifstream (fileName : String) (contents : Option String)
  | S3D_LOG (level : String) (msg : String)
  | S3D_WARNING (msg : String)
  | fprintf_stderr (msg : String)
  deriving DecidableEq, Repr

/-- The process-wide state: the calls made so far and the global vector
`shaderFileNames` (declared outside `Shader.cpp`; a vector of strings, from its
uses `push_back` and `operator[]`). -/
structure World where
  trace : List Event
  shaderFileNames : List String
  deriving DecidableEq, Repr

/-- The external collaborators.  Each answer is a function of the history of
calls.  `getShaderiv` and `getProgramiv` give the value found in the output
variable after the call; the two `InfoLog` fields give the text found in the
buffer after the call; `readFile` is `none` for a file that cannot be opened.
`StripNewline` is `Utilities::StripNewline` and `CREATION_ERROR` the constant of
that name, both declared outside `Shader.cpp`; `indeterminate` gives the
contents of storage that has been allocated and not yet written. -/
structure Env where
  createProgram : List Event → GLuint
  createShader : List Event → GLenum → GLuint
  getShaderiv : List Event → GLuint → GLenum → GLint
  getProgramiv : List Event → GLuint → GLenum → GLint
  shaderInfoLog : List Event → GLuint → GLint → String
  programInfoLog : List Event → GLuint → GLint → String
  readFile : List Event → String → Option String
  StripNewline : String → String
  CREATION_ERROR : GLuint
  indeterminate : Nat → Nat

/-- The data members of a `Shader` object. -/
structure Shader where
  m_FileName : String
  m_NumShaders : Nat
  m_ShaderTypes : List GLenum
  m_Shaders : List GLuint
  m_ProgramID : GLuint
  m_ShaderID : GLuint
  deriving DecidableEq, Repr

/-! ## Calls to the collaborators -/

def World.emit (w : World) (e : Event) : World :=
  { w with trace := w.trace ++ [e] }

/-- Modelled from the spec: the macro `S3D_LOG` is defined outside
`Shader.cpp`.  The diagnostics sink accepts a severity level and a message
string; one use of the macro hands one such line to the sink. -/
def S3D_LOG (w : World) (level msg : String) : World :=
  w.emit (Event.S3D_LOG level msg)

/-- Modelled from the spec: the macro `S3D_WARNING` is defined outside
`Shader.cpp`.  One use of the macro emits one warning with the given message. -/
def S3D_WARNING (w : World) (msg : String) : World :=
  w.emit (Event.S3D_WARNING msg)

def glCreateProgram (env : Env) (w : World) : GLuint × World :=
  (env.createProgram w.trace, w.emit (Event.glCreateProgram (env.createProgram w.trace)))

def glCreateShader (env : Env) (w : World) (shaderType : GLenum) : GLuint × World :=
  (env.createShader w.trace shaderType,
    w.emit (Event.glCreateShader shaderType (env.createShader w.trace shaderType)))

def glGetShaderiv (env : Env) (w : World) (shader : GLuint) (pname : GLenum) : GLint × World :=
  (env.getShaderiv w.trace shader pname,
    w.emit (Event.glGetShaderiv shader pname (env.getShaderiv w.trace shader pname)))

def glGetProgramiv (env : Env) (w : World) (program : GLuint) (pname : GLenum) : GLint × World :=
  (env.getProgramiv w.trace program pname,
    w.emit (Event.glGetProgramiv program pname (env.getProgramiv w.trace program pname)))

def glGetShaderInfoLog (env : Env) (w : World) (shader : GLuint) (bufSize : GLint) :
    String × World :=
  (env.shaderInfoLog w.trace shader bufSize,
    w.emit (Event.glGetShaderInfoLog shader bufSize (env.shaderInfoLog w.trace shader bufSize)))

def glGetProgramInfoLog (env : Env) (w : World) (program : GLuint) (bufSize : GLint) :
    String × World :=
  (env.programInfoLog w.trace program bufSize,
    w.emit (Event.glGetProgramInfoLog program bufSize (env.programInfoLog w.trace program bufSize)))

/-- Whether a logged event is a warning: a line of `S3D_WARNING`, or a line of
`S3D_LOG` at level `"WARNING"`. -/
def Event.isWarning : Event → Bool
  | Event.S3D_WARNING _ => true
  | Event.S3D_LOG level _ => level == "WARNING"
  | _ => false

/-! ## The member functions -/

/-- The `switch` of `CompileShader`: the extension of a recognized stage kind,
`none` for the `default` case. -/
def extension (shaderType : GLenum) : Option String :=
  if shaderType = GL_VERTEX_SHADER then some ".vs"
  else if shaderType = GL_FRAGMENT_SHADER then some ".fs"
  else if shaderType = GL_TESS_CONTROL_SHADER then some ".tesc"
  else if shaderType = GL_TESS_EVALUATION_SHADER then some ".tese"
  else if shaderType = GL_GEOMETRY_SHADER then some ".gs"
  else if shaderType = GL_COMPUTE_SHADER then some ".glcs"
  else none

/-- `Shader::LoadShader`. -/
def LoadShader (env : Env) (w : World) (fileName : String) : String × World :=
  let w1 := S3D_LOG w "INFO" ("File name is " ++ fileName)
  let shaderFile := env.readFile w1.trace fileName
  let w2 := w1.emit (Event.ifstream fileName shaderFile)
  let w3 : World := { w2 with shaderFileNames := w2.shaderFileNames ++ [fileName] }
  match shaderFile with
  | some contents => (contents, w3)
  | none => ("", S3D_LOG w3 "WARNING" ("Could not load shader " ++ fileName))

/-- `Shader::CompileShader`: the returned value, the object and the world. -/
def CompileShader (env : Env) (s : Shader) (w : World) (shaderType : GLenum) :
    GLuint × Shader × World :=
  match extension shaderType with
  | none => (1, s, w.emit (Event.fprintf_stderr "Not a recognized shader type"))
  | some ext =>
    let c := glCreateShader env w shaderType
    let s1 : Shader := { s with m_ShaderID := c.1 }
    if s1.m_ShaderID = 0 then
      (env.CREATION_ERROR, s1, S3D_LOG c.2 "WARNING" "Error creating shader")
    else
      let l := LoadShader env c.2 (s1.m_FileName ++ ext)
      let w3 := l.2.emit (Event.glShaderSource s1.m_ShaderID l.1)
      let w4 := w3.emit (Event.glCompileShader s1.m_ShaderID)
      (s1.m_ShaderID, s1, w4)

/-- `Shader::CheckError`.  The two function pointers are the two function
arguments.  The buffer is `std::vector<GLchar> infoLog(infoLogLength)`, and
both `infoLogFunc` and `std::string s` are given `&infoLog[0]`: for a negative
length the constructor of the vector throws, and for the length 0 the vector is
empty, so that `&infoLog[0]` lies outside it and the string is built from no
storage.  In both cases the source yields no returned value (an exception that
nothing catches, or no defined behaviour), which is the result `none`.  For a
positive length the buffer is represented by the text the driver leaves in
it. -/
def CheckError (env : Env) (s : Shader) (w : World) (isShader : Bool) (file : String)
    (objectID : GLuint) (objectPropGetter : World → GLuint → GLenum → GLint × World)
    (infoLogFunc : World → GLuint → GLint → String × World) (statusType : GLenum) :
    Option (Bool × World) :=
  let st := objectPropGetter w objectID statusType
  if st.1 ≠ GL_TRUE then
    let len := objectPropGetter st.2 objectID GL_INFO_LOG_LENGTH
    if len.1 ≤ 0 then none
    else
      let infoLog := infoLogFunc len.2 objectID len.1
      let str := env.StripNewline infoLog.1
      if isShader then
        some (true, S3D_LOG infoLog.2 "WARNING" (str ++ " in " ++ file))
      else
        some (true, S3D_LOG infoLog.2 "WARNING" (str ++ " Program " ++ s.m_FileName))
  else
    some (false, st.2)

/-- `Shader::CheckShaderError`. -/
def CheckShaderError (env : Env) (s : Shader) (w : World) (shaderID : GLuint) (file : String) :
    Option (Bool × World) :=
  CheckError env s w true file shaderID (glGetShaderiv env) (glGetShaderInfoLog env)
    GL_COMPILE_STATUS

/-- `Shader::CheckProgramError`. -/
def CheckProgramError (env : Env) (s : Shader) (w : World) (programID : GLuint) :
    Option (Bool × World) :=
  CheckError env s w false "" programID (glGetProgramiv env) (glGetProgramInfoLog env)
    GL_LINK_STATUS

/-- The body of the first loop of `CreateProgram` at index `i`. -/
def stageStep (env : Env) (i : Nat) (s : Shader) (w : World) : Option (Shader × World) :=
  match s.m_ShaderTypes[i]? with
  | none => none
  | some shaderType =>
    let r := CompileShader env s w shaderType
    if i < r.2.1.m_Shaders.length then
      let s1 : Shader := { r.2.1 with m_Shaders := r.2.1.m_Shaders.set i r.1 }
      match r.2.2.shaderFileNames[i]? with
      | none => none
      | some file =>
        match CheckShaderError env s1 r.2.2 r.1 file with
        | none => none
        | some c =>
          if c.1 then some (s1, c.2)
          else some (s1, c.2.emit (Event.glAttachShader s1.m_ProgramID r.1))
    else none

/-- The first loop of `CreateProgram`: `n` iterations starting at index `i`. -/
def stageLoop (env : Env) : Nat → Nat → Shader → World → Option (Shader × World)
  | 0, _, s, w => some (s, w)
  | n + 1, i, s, w =>
    match stageStep env i s w with
    | none => none
    | some r => stageLoop env n (i + 1) r.1 r.2

/-- The second loop of `CreateProgram`: `n` iterations starting at index `i`. -/
def deleteLoop (s : Shader) : Nat → Nat → World → Option World
  | 0, _, w => some w
  | n + 1, i, w =>
    match s.m_Shaders[i]? with
    | none => none
    | some shader => deleteLoop s n (i + 1) (w.emit (Event.glDeleteShader shader))

/-- `Shader::CreateProgram`. -/
def CreateProgram (env : Env) (s : Shader) (w : World) : Option (Shader × World) :=
  match stageLoop env s.m_NumShaders 0 s w with
  | none => none
  | some r =>
    let w2 := r.2.emit (Event.glBindAttribLocation r.1.m_ProgramID 0 "position")
    let w3 := w2.emit (Event.glBindAttribLocation r.1.m_ProgramID 1 "texCoord")
    let w4 := w3.emit (Event.glLinkProgram r.1.m_ProgramID)
    match CheckProgramError env r.1 w4 r.1.m_ProgramID with
    | none => none
    | some c =>
      let w5 := if c.1 then c.2.emit (Event.glDeleteProgram r.1.m_ProgramID) else c.2
      match deleteLoop r.1 r.1.m_NumShaders 0 w5 with
      | none => none
      | some w6 => some (r.1, w6)

/-- `Shader::Bind`.  The member function is `const`: the object is not
returned because it cannot change. -/
def Bind (s : Shader) (w : World) : World :=
  w.emit (Event.glUseProgram s.m_ProgramID)

/-- The copy loop of `Init`: `n` iterations starting at index `i`, writing
into `dst`. -/
def copyLoop (shaderTypes : List GLenum) : Nat → Nat → List GLenum → Option (List GLenum)
  | 0, _, dst => some dst
  | n + 1, i, dst =>
    match shaderTypes[i]? with
    | none => none
    | some shaderType => copyLoop shaderTypes n (i + 1) (dst.set i shaderType)

/-- `Shader::Init`: the returned value, the object and the world. -/
def Init (env : Env) (s : Shader) (w : World) (numShaders : Nat) (shaderTypes : List GLenum) :
    Option (Bool × Shader × World) :=
  match copyLoop shaderTypes numShaders 0 ((List.range numShaders).map env.indeterminate) with
  | none => none
  | some types =>
    let c := glCreateProgram env w
    let s1 : Shader :=
      { s with
        m_ShaderTypes := types
        m_Shaders := (List.range numShaders).map env.indeterminate
        m_ProgramID := c.1 }
    if s1.m_ProgramID = 0 then some (false, s1, c.2) else some (true, s1, c.2)

/-- The constructor `Shader::Shader`. -/
def Shader.construct (env : Env) (w : World) (fileName : String) (shaderTypes : List GLenum)
    (numShaders : Nat) : Option (Shader × World) :=
  let s0 : Shader :=
    { m_FileName := fileName
      m_NumShaders := numShaders
      m_ShaderTypes := []
      m_Shaders := []
      m_ProgramID := env.indeterminate 0
      m_ShaderID := env.indeterminate 0 }
  match Init env s0 w numShaders shaderTypes with
  | none => none
  | some r =>
    if !r.1 then
      some (r.2.1, S3D_WARNING r.2.2 (r.2.1.m_FileName ++ "Shader Program could not be initialized"))
    else some (r.2.1, r.2.2)

/-- The destructor `Shader::~Shader`: the program is released and the two
arrays are freed with the object. -/
def Shader.destruct (s : Shader) (w : World) : World :=
  w.emit (Event.glDeleteProgram s.m_ProgramID)

/-- A lifecycle of one object: construction, `CreateProgram` when
`callCreateProgram` is set, then destruction. -/
def lifecycle (env : Env) (w : World) (fileName : String) (shaderTypes : List GLenum)
    (numShaders : Nat) (callCreateProgram : Bool) : Option World :=
  match Shader.construct env w fileName shaderTypes numShaders with
  | none => none
  | some r =>
    if callCreateProgram then
      match CreateProgram env r.1 r.2 with
      | none => none
      | some r2 => some (Shader.destruct r2.1 r2.2)
    else some (Shader.destruct r.1 r.2)

/-- The constructor followed by one call of `CreateProgram` on the new object. -/
def constructThenCreate (env : Env) (w : World) (fileName : String) (shaderTypes : List GLenum)
    (numShaders : Nat) : Option (Shader × World) :=
  match Shader.construct env w fileName shaderTypes numShaders with
  | none => none
  | some r => CreateProgram env r.1 r.2

/-! ## Classes of events -/

/-- Events that `CompileShader` can emit. -/
def Event.isCompile : Event → Bool
  | Event.glCreateShader _ _ => true
  | Event.glShaderSource _ _ => true
  | Event.glCompileShader _ => true
  | Event.ifstream _ _ => true
  | Event.S3D_LOG _ _ => true
  | Event.fprintf_stderr _ => true
  | _ => false

/-- Whether an event is a call of `glAttachShader`. -/
def Event.isAttach : Event → Bool
  | Event.glAttachShader _ _ => true
  | _ => false

/-- Events that one iteration of the first loop of `CreateProgram` can emit. -/
def Event.isStage : Event → Bool
  | Event.glCreateShader _ _ => true
  | Event.glShaderSource _ _ => true
  | Event.glCompileShader _ => true
  | Event.glGetShaderiv _ _ _ => true
  | Event.glGetShaderInfoLog _ _ _ => true
  | Event.glAttachShader _ _ => true
  | Event.ifstream _ _ => true
  | Event.S3D_LOG _ _ => true
  | Event.fprintf_stderr _ => true
  | _ => false

/-- Events that `CreateProgram` can emit after its call of `glLinkProgram`. -/
def Event.isAfterLink : Event → Bool
  | Event.glGetProgramiv _ _ _ => true
  | Event.glGetProgramInfoLog _ _ _ => true
  | Event.S3D_LOG _ _ => true
  | Event.glDeleteProgram _ => true
  | Event.glDeleteShader _ => true
  | _ => false

/-- An environment in which, for the base name `fileName` and the kinds of
`shaderTypes`, every allocation succeeds, every source file can be read and
every compilation and every link is reported successful. -/
def Env.succeeds (env : Env) (fileName : String) (shaderTypes : List GLenum) : Prop :=
  (∀ t, env.createProgram t ≠ 0)
  ∧ (∀ t ty, env.createShader t ty ≠ 0)
  ∧ (∀ t ty ext, ty ∈ shaderTypes → extension ty = some ext →
      env.readFile t (fileName ++ ext) ≠ none)
  ∧ (∀ t id, env.getShaderiv t id GL_COMPILE_STATUS = GL_TRUE)
  ∧ (∀ t id, env.getProgramiv t id GL_LINK_STATUS = GL_TRUE)

/-! ## Concrete environments -/

/-- A driver that hands out fresh handles and reports every compilation and
every link successful, over a file system in which every file can be read. -/
def goodEnv : Env :=
  { createProgram := fun t => t.length + 1
    createShader := fun t _ => t.length + 1
    getShaderiv := fun _ _ pname => if pname = GL_COMPILE_STATUS then 1 else 0
    getProgramiv := fun _ _ pname => if pname = GL_LINK_STATUS then 1 else 0
    shaderInfoLog := fun _ _ _ => ""
    programInfoLog := fun _ _ _ => ""
    readFile := fun _ _ => some "void main();"
    StripNewline := fun x => x
    CREATION_ERROR := 0
    indeterminate := fun _ => 0 }

/-- As `goodEnv`, with every link reported failed. -/
def linkFailEnv : Env :=
  { goodEnv with
    getProgramiv := fun _ _ pname => if pname = GL_LINK_STATUS then 0 else 11
    programInfoLog := fun _ _ _ => "link error" }

/-- As `goodEnv`, with every compilation reported failed. -/
def compileFailEnv : Env :=
  { goodEnv with
    getShaderiv := fun _ _ pname => if pname = GL_COMPILE_STATUS then 0 else 13
    shaderInfoLog := fun _ _ _ => "syntax error" }

/-- As `goodEnv`, with the answer 0 to every query on a stage object: every
compilation is reported failed and every stage has the info-log length 0 (no
information log). -/
def emptyShaderLogEnv : Env :=
  { goodEnv with getShaderiv := fun _ _ _ => 0 }

/-- As `goodEnv`, with the answer 0 to every query on a program object: every
link is reported failed and every program has the info-log length 0 (no
information log). -/
def emptyProgramLogEnv : Env :=
  { goodEnv with getProgramiv := fun _ _ _ => 0 }

/-- As `emptyShaderLogEnv`, over a file system in which the file `a.vs` cannot be
read and every other file can. -/
def missingVertexFileEnv : Env :=
  { emptyShaderLogEnv with
    readFile := fun _ f => if f = "a.vs" then none else some "void main();" }

/-- As `missingVertexFileEnv`, with the info-log length 13 and the log text
`syntax error` for every stage. -/
def missingVertexFileLogEnv : Env :=
  { missingVertexFileEnv with
    getShaderiv := fun _ _ pname => if pname = GL_COMPILE_STATUS then 0 else 13
    shaderInfoLog := fun _ _ _ => "syntax error" }

/-- A process in which no `Shader` has been created yet. -/
def freshWorld : World := { trace := [], shaderFileNames := [] }

/-- The object that the constructor builds, under `goodEnv` and from
`freshWorld`, for base name `a` and one vertex stage. -/
def vertexObject : Shader :=
  { m_FileName := "a", m_NumShaders := 1, m_ShaderTypes := [GL_VERTEX_SHADER],
    m_Shaders := [0], m_ProgramID := 1, m_ShaderID := 0 }

/-- The process after that construction. -/
def constructedWorld : World :=
  { trace := [Event.glCreateProgram 1], shaderFileNames := [] }

/-- The object `vertexObject` after `CreateProgram`. -/
def linkedObject : Shader :=
  { m_FileName := "a", m_NumShaders := 1, m_ShaderTypes := [GL_VERTEX_SHADER],
    m_Shaders := [2], m_ProgramID := 1, m_ShaderID := 2 }

/-- The process after `CompileShader` for the vertex stage of `vertexObject`,
from `constructedWorld`, when the file `a.vs` can be read. -/
def compiledWorld : World :=
  { trace := [Event.glCreateProgram 1,
      Event.glCreateShader GL_VERTEX_SHADER 2,
      Event.S3D_LOG "INFO" "File name is a.vs",
      Event.ifstream "a.vs" (some "void main();"),
      Event.glShaderSource 2 "void main();",
      Event.glCompileShader 2],
    shaderFileNames := ["a.vs"] }

/-- The process after `CompileShader` for the vertex stage of an object with
base name `a`, from `constructedWorld`, when the file `a.vs` cannot be read. -/
def compiledEmptyWorld : World :=
  { trace := [Event.glCreateProgram 1,
      Event.glCreateShader GL_VERTEX_SHADER 2,
      Event.S3D_LOG "INFO" "File name is a.vs",
      Event.ifstream "a.vs" none,
      Event.S3D_LOG "WARNING" "Could not load shader a.vs",
      Event.glShaderSource 2 "",
      Event.glCompileShader 2],
    shaderFileNames := ["a.vs"] }

/-- The object that the constructor builds for base name `a`, a vertex and a
fragment stage. -/
def pairObject : Shader :=
  { m_FileName := "a", m_NumShaders := 2,
    m_ShaderTypes := [GL_VERTEX_SHADER, GL_FRAGMENT_SHADER],
    m_Shaders := [0, 0], m_ProgramID := 1, m_ShaderID := 0 }

/-- The process when `CreateProgram` on `vertexObject`, with the compilation
reported successful, has called `glLinkProgram`. -/
def linkedWorld : World :=
  { trace := [Event.glCreateProgram 1,
      Event.glCreateShader GL_VERTEX_SHADER 2,
      Event.S3D_LOG "INFO" "File name is a.vs",
      Event.ifstream "a.vs" (some "void main();"),
      Event.glShaderSource 2 "void main();",
      Event.glCompileShader 2,
      Event.glGetShaderiv 2 GL_COMPILE_STATUS 1,
      Event.glAttachShader 1 2,
      Event.glBindAttribLocation 1 0 "position",
      Event.glBindAttribLocation 1 1 "texCoord",
      Event.glLinkProgram 1],
    shaderFileNames := ["a.vs"] }

/-- The process after `CreateProgram` on `vertexObject` under `goodEnv`. -/
def goodCreateEnd : World :=
  { trace := [Event.glCreateProgram 1,
      Event.glCreateShader GL_VERTEX_SHADER 2,
      Event.S3D_LOG "INFO" "File name is a.vs",
      Event.ifstream "a.vs" (some "void main();"),
      Event.glShaderSource 2 "void main();",
      Event.glCompileShader 2,
      Event.glGetShaderiv 2 GL_COMPILE_STATUS 1,
      Event.glAttachShader 1 2,
      Event.glBindAttribLocation 1 0 "position",
      Event.glBindAttribLocation 1 1 "texCoord",
      Event.glLinkProgram 1,
      Event.glGetProgramiv 1 GL_LINK_STATUS 1,
      Event.glDeleteShader 2],
    shaderFileNames := ["a.vs"] }

/-- The process after `CreateProgram` on `vertexObject` under `linkFailEnv`. -/
def linkFailCreateEnd : World :=
  { trace := [Event.glCreateProgram 1,
      Event.glCreateShader GL_VERTEX_SHADER 2,
      Event.S3D_LOG "INFO" "File name is a.vs",
      Event.ifstream "a.vs" (some "void main();"),
      Event.glShaderSource 2 "void main();",
      Event.glCompileShader 2,
      Event.glGetShaderiv 2 GL_COMPILE_STATUS 1,
      Event.glAttachShader 1 2,
      Event.glBindAttribLocation 1 0 "position",
      Event.glBindAttribLocation 1 1 "texCoord",
      Event.glLinkProgram 1,
      Event.glGetProgramiv 1 GL_LINK_STATUS 0,
      Event.glGetProgramiv 1 GL_INFO_LOG_LENGTH 11,
      Event.glGetProgramInfoLog 1 11 "link error",
      Event.S3D_LOG "WARNING" "link error Program a",
      Event.glDeleteProgram 1,
      Event.glDeleteShader 2],
    shaderFileNames := ["a.vs"] }

/-- The process at the end of the lifecycle, under `goodEnv` and from
`freshWorld`, of one object with base name `a` and one vertex stage. -/
def goodLifecycleEnd : World :=
  goodCreateEnd.emit (Event.glDeleteProgram 1)

/-- A process in which an earlier `Shader`, with base name `a` and one vertex
stage, has been created and destroyed: the global list holds its one name. -/
def laterWorld : World := goodLifecycleEnd

/-- The handle that a call of `glCreateShader` returned; `none` for every
other event. -/
def Event.createdShader : Event → Option GLuint
  | Event.glCreateShader _ ret => some ret
  | _ => none

/-- Whether an event is a call of `glCreateShader` that returned `id`. -/
def Event.returnsShader (id : GLuint) : Event → Bool
  | Event.glCreateShader _ ret => ret == id
  | _ => false

/-! ## Lemmas -/

@[simp] theorem emit_trace (w : World) (e : Event) : (w.emit e).trace = w.trace ++ [e] := rfl

@[simp] theorem emit_names (w : World) (e : Event) :
    (w.emit e).shaderFileNames = w.shaderFileNames := rfl

@[simp] theorem S3D_LOG_trace (w : World) (l m : String) :
    (S3D_LOG w l m).trace = w.trace ++ [Event.S3D_LOG l m] := rfl

@[simp] theorem S3D_LOG_names (w : World) (l m : String) :
    (S3D_LOG w l m).shaderFileNames = w.shaderFileNames := rfl

theorem LoadShader_none (env : Env) (w : World) (f : String)
    (h : env.readFile (w.trace ++ [Event.S3D_LOG "INFO" ("File name is " ++ f)]) f = none) :
    LoadShader env w f =
      ("", { trace := w.trace ++ [Event.S3D_LOG "INFO" ("File name is " ++ f),
                Event.ifstream f none, Event.S3D_LOG "WARNING" ("Could not load shader " ++ f)],
             shaderFileNames := w.shaderFileNames ++ [f] }) := by
  simp [LoadShader, S3D_LOG, World.emit, h]

theorem LoadShader_some (env : Env) (w : World) (f c : String)
    (h : env.readFile (w.trace ++ [Event.S3D_LOG "INFO" ("File name is " ++ f)]) f = some c) :
    LoadShader env w f =
      (c, { trace := w.trace ++ [Event.S3D_LOG "INFO" ("File name is " ++ f),
                Event.ifstream f (some c)],
            shaderFileNames := w.shaderFileNames ++ [f] }) := by
  simp [LoadShader, S3D_LOG, World.emit, h]

theorem LoadShader_names (env : Env) (w : World) (f : String) :
    (LoadShader env w f).2.shaderFileNames = w.shaderFileNames ++ [f] := by
  cases h : env.readFile (w.trace ++ [Event.S3D_LOG "INFO" ("File name is " ++ f)]) f with
  | none => rw [LoadShader_none env w f h]
  | some c => rw [LoadShader_some env w f c h]

theorem LoadShader_trace (env : Env) (w : World) (f : String) :
    ∃ evs, (LoadShader env w f).2.trace = w.trace ++ evs ∧ ∀ e ∈ evs, e.isCompile = true := by
  cases h : env.readFile (w.trace ++ [Event.S3D_LOG "INFO" ("File name is " ++ f)]) f with
  | none =>
    rw [LoadShader_none env w f h]
    exact ⟨_, rfl, by simp [Event.isCompile]⟩
  | some c =>
    rw [LoadShader_some env w f c h]
    exact ⟨_, rfl, by simp [Event.isCompile]⟩

theorem CompileShader_unrecognized (env : Env) (s : Shader) (w : World) (ty : GLenum)
    (h : extension ty = none) :
    CompileShader env s w ty
      = (1, s, w.emit (Event.fprintf_stderr "Not a recognized shader type")) := by
  simp [CompileShader, h]

theorem CompileShader_not_created (env : Env) (s : Shader) (w : World) (ty : GLenum)
    (ext : String) (h : extension ty = some ext) (h0 : env.createShader w.trace ty = 0) :
    CompileShader env s w ty
      = (env.CREATION_ERROR, { s with m_ShaderID := 0 },
          { trace := w.trace ++ [Event.glCreateShader ty 0,
              Event.S3D_LOG "WARNING" "Error creating shader"],
            shaderFileNames := w.shaderFileNames }) := by
  simp [CompileShader, h, glCreateShader, h0, S3D_LOG, World.emit]

theorem CompileShader_created (env : Env) (s : Shader) (w : World) (ty : GLenum)
    (ext : String) (h : extension ty = some ext) (h0 : env.createShader w.trace ty ≠ 0) :
    CompileShader env s w ty
      = (env.createShader w.trace ty, { s with m_ShaderID := env.createShader w.trace ty },
          ((LoadShader env (w.emit (Event.glCreateShader ty (env.createShader w.trace ty)))
              (s.m_FileName ++ ext)).2.emit
            (Event.glShaderSource (env.createShader w.trace ty)
              (LoadShader env (w.emit (Event.glCreateShader ty (env.createShader w.trace ty)))
                (s.m_FileName ++ ext)).1)).emit
            (Event.glCompileShader (env.createShader w.trace ty))) := by
  simp [CompileShader, h, glCreateShader, h0]

theorem CompileShader_obj (env : Env) (s : Shader) (w : World) (ty : GLenum) :
    ∃ x, (CompileShader env s w ty).2.1 = { s with m_ShaderID := x } := by
  cases h : extension ty with
  | none =>
    rw [CompileShader_unrecognized env s w ty h]
    exact ⟨s.m_ShaderID, rfl⟩
  | some ext =>
    by_cases h0 : env.createShader w.trace ty = 0
    · rw [CompileShader_not_created env s w ty ext h h0]
      exact ⟨_, rfl⟩
    · rw [CompileShader_created env s w ty ext h h0]
      exact ⟨_, rfl⟩

theorem CompileShader_trace (env : Env) (s : Shader) (w : World) (ty : GLenum) :
    ∃ evs, (CompileShader env s w ty).2.2.trace = w.trace ++ evs
      ∧ ∀ e ∈ evs, e.isCompile = true := by
  cases h : extension ty with
  | none =>
    rw [CompileShader_unrecognized env s w ty h]
    exact ⟨_, rfl, by simp [Event.isCompile]⟩
  | some ext =>
    by_cases h0 : env.createShader w.trace ty = 0
    · rw [CompileShader_not_created env s w ty ext h h0]
      exact ⟨_, rfl, by simp [Event.isCompile]⟩
    · rw [CompileShader_created env s w ty ext h h0]
      obtain ⟨evs, hevs, hc⟩ := LoadShader_trace env
        (w.emit (Event.glCreateShader ty (env.createShader w.trace ty))) (s.m_FileName ++ ext)
      refine ⟨[Event.glCreateShader ty (env.createShader w.trace ty)] ++ evs ++
        [Event.glShaderSource (env.createShader w.trace ty)
          (LoadShader env (w.emit (Event.glCreateShader ty (env.createShader w.trace ty)))
            (s.m_FileName ++ ext)).1,
         Event.glCompileShader (env.createShader w.trace ty)], ?_, ?_⟩
      · simp [hevs]
      · intro e he
        simp only [List.mem_append, List.mem_cons, List.mem_singleton, List.not_mem_nil,
          or_false] at he
        rcases he with (rfl | he) | rfl | rfl
        · rfl
        · exact hc e he
        · rfl
        · rfl

theorem CompileShader_names (env : Env) (s : Shader) (w : World) (ty : GLenum) :
    (CompileShader env s w ty).2.2.shaderFileNames =
      w.shaderFileNames ++
        (match extension ty with
          | none => []
          | some ext => if env.createShader w.trace ty = 0 then [] else [s.m_FileName ++ ext]) := by
  cases h : extension ty with
  | none =>
    rw [CompileShader_unrecognized env s w ty h]
    simp
  | some ext =>
    by_cases h0 : env.createShader w.trace ty = 0
    · rw [CompileShader_not_created env s w ty ext h h0]
      simp [h0]
    · rw [CompileShader_created env s w ty ext h h0]
      simp [h0, LoadShader_names]

theorem CheckShaderError_ok (env : Env) (s : Shader) (w : World) (id : GLuint) (file : String)
    (h : env.getShaderiv w.trace id GL_COMPILE_STATUS = GL_TRUE) :
    CheckShaderError env s w id file
      = some (false, w.emit (Event.glGetShaderiv id GL_COMPILE_STATUS GL_TRUE)) := by
  simp [CheckShaderError, CheckError, glGetShaderiv, h]

theorem CheckShaderError_none (env : Env) (s : Shader) (w : World) (id : GLuint) (file : String)
    (h : env.getShaderiv w.trace id GL_COMPILE_STATUS ≠ GL_TRUE)
    (hl : (env.getShaderiv (w.trace ++ [Event.glGetShaderiv id GL_COMPILE_STATUS (env.getShaderiv w.trace id GL_COMPILE_STATUS)]) id GL_INFO_LOG_LENGTH) ≤ 0) :
    CheckShaderError env s w id file = none := by
  simp [CheckShaderError, CheckError, glGetShaderiv, glGetShaderInfoLog, h, hl, World.emit]

theorem CheckShaderError_fail (env : Env) (s : Shader) (w : World) (id : GLuint) (file : String)
    (h : env.getShaderiv w.trace id GL_COMPILE_STATUS ≠ GL_TRUE)
    (hl : 0 < (env.getShaderiv (w.trace ++ [Event.glGetShaderiv id GL_COMPILE_STATUS (env.getShaderiv w.trace id GL_COMPILE_STATUS)]) id GL_INFO_LOG_LENGTH)) :
    CheckShaderError env s w id file
      = some (true,
          { trace := w.trace ++
              [Event.glGetShaderiv id GL_COMPILE_STATUS (env.getShaderiv w.trace id GL_COMPILE_STATUS),
               Event.glGetShaderiv id GL_INFO_LOG_LENGTH (env.getShaderiv (w.trace ++ [Event.glGetShaderiv id GL_COMPILE_STATUS (env.getShaderiv w.trace id GL_COMPILE_STATUS)]) id GL_INFO_LOG_LENGTH),
               Event.glGetShaderInfoLog id (env.getShaderiv (w.trace ++ [Event.glGetShaderiv id GL_COMPILE_STATUS (env.getShaderiv w.trace id GL_COMPILE_STATUS)]) id GL_INFO_LOG_LENGTH)
                 (env.shaderInfoLog (w.trace ++ [Event.glGetShaderiv id GL_COMPILE_STATUS (env.getShaderiv w.trace id GL_COMPILE_STATUS),
        Event.glGetShaderiv id GL_INFO_LOG_LENGTH (env.getShaderiv (w.trace ++ [Event.glGetShaderiv id GL_COMPILE_STATUS (env.getShaderiv w.trace id GL_COMPILE_STATUS)]) id GL_INFO_LOG_LENGTH)]) id
        (env.getShaderiv (w.trace ++ [Event.glGetShaderiv id GL_COMPILE_STATUS (env.getShaderiv w.trace id GL_COMPILE_STATUS)]) id GL_INFO_LOG_LENGTH)),
               Event.S3D_LOG "WARNING" (env.StripNewline
                 (env.shaderInfoLog (w.trace ++ [Event.glGetShaderiv id GL_COMPILE_STATUS (env.getShaderiv w.trace id GL_COMPILE_STATUS),
        Event.glGetShaderiv id GL_INFO_LOG_LENGTH (env.getShaderiv (w.trace ++ [Event.glGetShaderiv id GL_COMPILE_STATUS (env.getShaderiv w.trace id GL_COMPILE_STATUS)]) id GL_INFO_LOG_LENGTH)]) id
        (env.getShaderiv (w.trace ++ [Event.glGetShaderiv id GL_COMPILE_STATUS (env.getShaderiv w.trace id GL_COMPILE_STATUS)]) id GL_INFO_LOG_LENGTH)) ++ " in " ++ file)],
            shaderFileNames := w.shaderFileNames }) := by
  simp [CheckShaderError, CheckError, glGetShaderiv, glGetShaderInfoLog, h, Int.not_le.2 hl, S3D_LOG, World.emit]

theorem CheckShaderError_some (env : Env) (s : Shader) (w w' : World) (id : GLuint) (file : String)
    (b : Bool) (h : CheckShaderError env s w id file = some (b, w')) :
    (env.getShaderiv w.trace id GL_COMPILE_STATUS = GL_TRUE ∧ b = false
      ∧ w' = w.emit (Event.glGetShaderiv id GL_COMPILE_STATUS GL_TRUE))
    ∨ (env.getShaderiv w.trace id GL_COMPILE_STATUS ≠ GL_TRUE ∧ b = true
      ∧ ∃ len text, 0 < len ∧ w' =
          { trace := w.trace ++
              [Event.glGetShaderiv id GL_COMPILE_STATUS (env.getShaderiv w.trace id GL_COMPILE_STATUS),
               Event.glGetShaderiv id GL_INFO_LOG_LENGTH len,
               Event.glGetShaderInfoLog id len text,
               Event.S3D_LOG "WARNING" (env.StripNewline text ++ " in " ++ file)],
            shaderFileNames := w.shaderFileNames }) := by
  by_cases hst : env.getShaderiv w.trace id GL_COMPILE_STATUS = GL_TRUE
  · rw [CheckShaderError_ok env s w id file hst] at h
    simp only [Option.some.injEq, Prod.mk.injEq] at h
    exact Or.inl ⟨hst, h.1.symm, h.2.symm⟩
  · refine Or.inr ⟨hst, ?_⟩
    rcases Int.lt_or_le 0 (env.getShaderiv (w.trace ++ [Event.glGetShaderiv id GL_COMPILE_STATUS (env.getShaderiv w.trace id GL_COMPILE_STATUS)]) id GL_INFO_LOG_LENGTH) with hl | hl
    · rw [CheckShaderError_fail env s w id file hst hl] at h
      simp only [Option.some.injEq, Prod.mk.injEq] at h
      exact ⟨h.1.symm, _, _, hl, h.2.symm⟩
    · rw [CheckShaderError_none env s w id file hst hl] at h
      cases h

theorem CheckProgramError_ok (env : Env) (s : Shader) (w : World) (id : GLuint)
    (h : env.getProgramiv w.trace id GL_LINK_STATUS = GL_TRUE) :
    CheckProgramError env s w id
      = some (false, w.emit (Event.glGetProgramiv id GL_LINK_STATUS GL_TRUE)) := by
  simp [CheckProgramError, CheckError, glGetProgramiv, h]

theorem CheckProgramError_none (env : Env) (s : Shader) (w : World) (id : GLuint)
    (h : env.getProgramiv w.trace id GL_LINK_STATUS ≠ GL_TRUE)
    (hl : (env.getProgramiv (w.trace ++ [Event.glGetProgramiv id GL_LINK_STATUS (env.getProgramiv w.trace id GL_LINK_STATUS)]) id GL_INFO_LOG_LENGTH) ≤ 0) :
    CheckProgramError env s w id = none := by
  simp [CheckProgramError, CheckError, glGetProgramiv, glGetProgramInfoLog, h, hl, World.emit]

theorem CheckProgramError_fail (env : Env) (s : Shader) (w : World) (id : GLuint)
    (h : env.getProgramiv w.trace id GL_LINK_STATUS ≠ GL_TRUE)
    (hl : 0 < (env.getProgramiv (w.trace ++ [Event.glGetProgramiv id GL_LINK_STATUS (env.getProgramiv w.trace id GL_LINK_STATUS)]) id GL_INFO_LOG_LENGTH)) :
    CheckProgramError env s w id
      = some (true,
          { trace := w.trace ++
              [Event.glGetProgramiv id GL_LINK_STATUS (env.getProgramiv w.trace id GL_LINK_STATUS),
               Event.glGetProgramiv id GL_INFO_LOG_LENGTH (env.getProgramiv (w.trace ++ [Event.glGetProgramiv id GL_LINK_STATUS (env.getProgramiv w.trace id GL_LINK_STATUS)]) id GL_INFO_LOG_LENGTH),
               Event.glGetProgramInfoLog id (env.getProgramiv (w.trace ++ [Event.glGetProgramiv id GL_LINK_STATUS (env.getProgramiv w.trace id GL_LINK_STATUS)]) id GL_INFO_LOG_LENGTH)
                 (env.programInfoLog (w.trace ++ [Event.glGetProgramiv id GL_LINK_STATUS (env.getProgramiv w.trace id GL_LINK_STATUS),
        Event.glGetProgramiv id GL_INFO_LOG_LENGTH (env.getProgramiv (w.trace ++ [Event.glGetProgramiv id GL_LINK_STATUS (env.getProgramiv w.trace id GL_LINK_STATUS)]) id GL_INFO_LOG_LENGTH)]) id
        (env.getProgramiv (w.trace ++ [Event.glGetProgramiv id GL_LINK_STATUS (env.getProgramiv w.trace id GL_LINK_STATUS)]) id GL_INFO_LOG_LENGTH)),
               Event.S3D_LOG "WARNING" (env.StripNewline
                 (env.programInfoLog (w.trace ++ [Event.glGetProgramiv id GL_LINK_STATUS (env.getProgramiv w.trace id GL_LINK_STATUS),
        Event.glGetProgramiv id GL_INFO_LOG_LENGTH (env.getProgramiv (w.trace ++ [Event.glGetProgramiv id GL_LINK_STATUS (env.getProgramiv w.trace id GL_LINK_STATUS)]) id GL_INFO_LOG_LENGTH)]) id
        (env.getProgramiv (w.trace ++ [Event.glGetProgramiv id GL_LINK_STATUS (env.getProgramiv w.trace id GL_LINK_STATUS)]) id GL_INFO_LOG_LENGTH)) ++ " Program " ++ s.m_FileName)],
            shaderFileNames := w.shaderFileNames }) := by
  simp [CheckProgramError, CheckError, glGetProgramiv, glGetProgramInfoLog, h, Int.not_le.2 hl, S3D_LOG, World.emit]

theorem CheckProgramError_some (env : Env) (s : Shader) (w w' : World) (id : GLuint)
    (b : Bool) (h : CheckProgramError env s w id = some (b, w')) :
    (env.getProgramiv w.trace id GL_LINK_STATUS = GL_TRUE ∧ b = false
      ∧ w' = w.emit (Event.glGetProgramiv id GL_LINK_STATUS GL_TRUE))
    ∨ (env.getProgramiv w.trace id GL_LINK_STATUS ≠ GL_TRUE ∧ b = true
      ∧ ∃ len text, 0 < len ∧ w' =
          { trace := w.trace ++
              [Event.glGetProgramiv id GL_LINK_STATUS (env.getProgramiv w.trace id GL_LINK_STATUS),
               Event.glGetProgramiv id GL_INFO_LOG_LENGTH len,
               Event.glGetProgramInfoLog id len text,
               Event.S3D_LOG "WARNING" (env.StripNewline text ++ " Program " ++ s.m_FileName)],
            shaderFileNames := w.shaderFileNames }) := by
  by_cases hst : env.getProgramiv w.trace id GL_LINK_STATUS = GL_TRUE
  · rw [CheckProgramError_ok env s w id hst] at h
    simp only [Option.some.injEq, Prod.mk.injEq] at h
    exact Or.inl ⟨hst, h.1.symm, h.2.symm⟩
  · refine Or.inr ⟨hst, ?_⟩
    rcases Int.lt_or_le 0 (env.getProgramiv (w.trace ++ [Event.glGetProgramiv id GL_LINK_STATUS (env.getProgramiv w.trace id GL_LINK_STATUS)]) id GL_INFO_LOG_LENGTH) with hl | hl
    · rw [CheckProgramError_fail env s w id hst hl] at h
      simp only [Option.some.injEq, Prod.mk.injEq] at h
      exact ⟨h.1.symm, _, _, hl, h.2.symm⟩
    · rw [CheckProgramError_none env s w id hst hl] at h
      cases h

theorem stageStep_some (env : Env) (i : Nat) (s s' : Shader) (w w' : World)
    (h : stageStep env i s w = some (s', w')) :
    ∃ ty file b wc, s.m_ShaderTypes[i]? = some ty ∧ i < s.m_Shaders.length
      ∧ (CompileShader env s w ty).2.2.shaderFileNames[i]? = some file
      ∧ s' = { (CompileShader env s w ty).2.1 with
                m_Shaders := s.m_Shaders.set i (CompileShader env s w ty).1 }
      ∧ CheckShaderError env s' (CompileShader env s w ty).2.2
          (CompileShader env s w ty).1 file = some (b, wc)
      ∧ w' = (if b then wc
              else wc.emit (Event.glAttachShader s.m_ProgramID (CompileShader env s w ty).1)) := by
  unfold stageStep at h
  cases hty : s.m_ShaderTypes[i]? with
  | none => simp [hty] at h
  | some ty =>
    obtain ⟨x, hx⟩ := CompileShader_obj env s w ty
    simp only [hty, hx] at h
    by_cases hi : i < s.m_Shaders.length
    · rw [if_pos hi] at h
      cases hf : (CompileShader env s w ty).2.2.shaderFileNames[i]? with
      | none => simp [hf] at h
      | some file =>
        simp only [hf] at h
        cases hc : CheckShaderError env
            { m_FileName := s.m_FileName, m_NumShaders := s.m_NumShaders,
              m_ShaderTypes := s.m_ShaderTypes,
              m_Shaders := s.m_Shaders.set i (CompileShader env s w ty).1,
              m_ProgramID := s.m_ProgramID, m_ShaderID := x }
            (CompileShader env s w ty).2.2 (CompileShader env s w ty).1 file with
        | none =>
          rw [hc] at h
          cases h
        | some c =>
          obtain ⟨b, wc⟩ := c
          rw [hc] at h
          refine ⟨ty, file, b, wc, rfl, hi, hf, ?_⟩
          rw [hx]
          cases b with
          | true =>
            simp only [if_true, Option.some.injEq, Prod.mk.injEq] at h
            obtain ⟨h1, h2⟩ := h
            subst h1
            exact ⟨rfl, hc, by simp [h2]⟩
          | false =>
            simp only [Bool.false_eq_true, if_false, Option.some.injEq, Prod.mk.injEq] at h
            obtain ⟨h1, h2⟩ := h
            subst h1
            exact ⟨rfl, hc, by simp [h2]⟩
    · rw [if_neg hi] at h
      simp at h

theorem isStage_of_isCompile (e : Event) (h : e.isCompile = true) : e.isStage = true := by
  cases e <;> simp_all [Event.isCompile, Event.isStage]

theorem not_isAttach_of_isCompile (e : Event) (h : e.isCompile = true) : e.isAttach = false := by
  cases e <;> simp_all [Event.isCompile, Event.isAttach]

theorem stageStep_detail (env : Env) (i : Nat) (s s' : Shader) (w w' : World)
    (h : stageStep env i s w = some (s', w')) :
    ∃ ty, s.m_ShaderTypes[i]? = some ty ∧ i < s.m_Shaders.length
      ∧ i < (CompileShader env s w ty).2.2.shaderFileNames.length
      ∧ s'.m_Shaders = s.m_Shaders.set i (CompileShader env s w ty).1
      ∧ s'.m_ProgramID = s.m_ProgramID ∧ s'.m_FileName = s.m_FileName
      ∧ s'.m_NumShaders = s.m_NumShaders ∧ s'.m_ShaderTypes = s.m_ShaderTypes
      ∧ w'.shaderFileNames = (CompileShader env s w ty).2.2.shaderFileNames
      ∧ ∃ rest, w'.trace = (CompileShader env s w ty).2.2.trace ++
            Event.glGetShaderiv (CompileShader env s w ty).1 GL_COMPILE_STATUS
              (env.getShaderiv (CompileShader env s w ty).2.2.trace
                (CompileShader env s w ty).1 GL_COMPILE_STATUS) :: rest
          ∧ (env.getShaderiv (CompileShader env s w ty).2.2.trace
                (CompileShader env s w ty).1 GL_COMPILE_STATUS = GL_TRUE →
              rest = [Event.glAttachShader s.m_ProgramID (CompileShader env s w ty).1])
          ∧ (env.getShaderiv (CompileShader env s w ty).2.2.trace
                (CompileShader env s w ty).1 GL_COMPILE_STATUS ≠ GL_TRUE →
              rest.countP Event.isWarning = 1 ∧ ∀ e ∈ rest, e.isAttach = false)
          ∧ ∀ e ∈ rest, e.isStage = true := by
  obtain ⟨ty, file, b, wc, hty, hi, hf, hs, hc, hw⟩ := stageStep_some env i s s' w w' h
  obtain ⟨x, hx⟩ := CompileShader_obj env s w ty
  rw [hx] at hs
  have hlen : i < (CompileShader env s w ty).2.2.shaderFileNames.length := by
    rcases Nat.lt_or_ge i (CompileShader env s w ty).2.2.shaderFileNames.length with hlt | hge
    · exact hlt
    · rw [List.getElem?_eq_none hge] at hf
      cases hf
  refine ⟨ty, hty, hi, hlen, by rw [hs], by rw [hs], by rw [hs], by rw [hs], by rw [hs], ?_⟩
  rcases CheckShaderError_some env s' _ wc _ file b hc with
    ⟨hst, hb, hwc⟩ | ⟨hst, hb, len, text, -, hwc⟩
  · subst hb
    simp only [Bool.false_eq_true, if_false] at hw
    subst hw
    subst hwc
    refine ⟨rfl, ⟨[Event.glAttachShader s.m_ProgramID (CompileShader env s w ty).1], ?_,
      fun _ => rfl, fun hne => absurd hst hne, ?_⟩⟩
    · rw [hst]
      simp
    · simp [Event.isStage]
  · subst hb
    simp only [if_true] at hw
    subst hw
    subst hwc
    refine ⟨rfl, ⟨[Event.glGetShaderiv (CompileShader env s w ty).1 GL_INFO_LOG_LENGTH len,
      Event.glGetShaderInfoLog (CompileShader env s w ty).1 len text,
      Event.S3D_LOG "WARNING" (env.StripNewline text ++ " in " ++ file)], rfl,
      fun he => absurd he hst, fun _ => ⟨?_, ?_⟩, ?_⟩⟩
    · simp [List.countP_cons, Event.isWarning]
    · simp [Event.isAttach]
    · simp [Event.isStage]

theorem stageStep_trace (env : Env) (i : Nat) (s s' : Shader) (w w' : World)
    (h : stageStep env i s w = some (s', w')) :
    ∃ evs, w'.trace = w.trace ++ evs ∧ ∀ e ∈ evs, e.isStage = true := by
  obtain ⟨ty, -, -, -, -, -, -, -, -, -, rest, hr, -, -, hst⟩ := stageStep_detail env i s s' w w' h
  obtain ⟨cevs, hc, hcs⟩ := CompileShader_trace env s w ty
  refine ⟨cevs ++ Event.glGetShaderiv (CompileShader env s w ty).1 GL_COMPILE_STATUS
              (env.getShaderiv (CompileShader env s w ty).2.2.trace
                (CompileShader env s w ty).1 GL_COMPILE_STATUS) :: rest, ?_, ?_⟩
  · rw [hr, hc, List.append_assoc]
  · intro e he
    simp only [List.mem_append, List.mem_cons] at he
    rcases he with he | rfl | he
    · exact isStage_of_isCompile e (hcs e he)
    · rfl
    · exact hst e he

theorem stageLoop_fields (env : Env) (n : Nat) :
    ∀ (i : Nat) (s s' : Shader) (w w' : World), stageLoop env n i s w = some (s', w') →
      s'.m_ProgramID = s.m_ProgramID ∧ s'.m_FileName = s.m_FileName
      ∧ s'.m_NumShaders = s.m_NumShaders ∧ s'.m_ShaderTypes = s.m_ShaderTypes
      ∧ s'.m_Shaders.length = s.m_Shaders.length ∧ (0 < n → i + n ≤ s.m_Shaders.length)
      ∧ (∀ j, j < i → s'.m_Shaders[j]? = s.m_Shaders[j]?)
      ∧ ∃ evs, w'.trace = w.trace ++ evs ∧ ∀ e ∈ evs, e.isStage = true := by
  induction n with
  | zero =>
    intro i s s' w w' h
    simp only [stageLoop, Option.some.injEq, Prod.mk.injEq] at h
    obtain ⟨rfl, rfl⟩ := h
    exact ⟨rfl, rfl, rfl, rfl, rfl, fun h0 => absurd h0 (Nat.lt_irrefl 0), fun _ _ => rfl,
      [], by simp, by simp⟩
  | succ n ih =>
    intro i s s' w w' h
    cases hstep : stageStep env i s w with
    | none => simp [stageLoop, hstep] at h
    | some r =>
      obtain ⟨s1, w1⟩ := r
      simp only [stageLoop, hstep] at h
      obtain ⟨ty, -, hi, -, hsh, hp, hf, hn, ht, -, -⟩ := stageStep_detail env i s s1 w w1 hstep
      obtain ⟨evs1, he1, hs1⟩ := stageStep_trace env i s s1 w w1 hstep
      obtain ⟨ip, if_, in_, it, il, ib, ij, evs2, he2, hs2⟩ := ih (i + 1) s1 s' w1 w' h
      have hl1 : s1.m_Shaders.length = s.m_Shaders.length := by rw [hsh, List.length_set]
      refine ⟨ip.trans hp, if_.trans hf, in_.trans hn, it.trans ht, il.trans hl1, ?_, ?_, ?_⟩
      · intro _
        rcases Nat.eq_zero_or_pos n with h0 | hpos
        · subst h0
          omega
        · have := ib hpos
          omega
      · intro j hj
        rw [ij j (by omega), hsh, List.getElem?_set_ne (by omega)]
      · refine ⟨evs1 ++ evs2, by rw [he2, he1, List.append_assoc], ?_⟩
        intro e he
        rcases List.mem_append.1 he with he | he
        · exact hs1 e he
        · exact hs2 e he

theorem deleteLoop_some (s : Shader) (n : Nat) :
    ∀ (i : Nat) (w w' : World), deleteLoop s n i w = some w' →
      w'.trace = w.trace ++ ((s.m_Shaders.drop i).take n).map Event.glDeleteShader
      ∧ w'.shaderFileNames = w.shaderFileNames := by
  induction n with
  | zero =>
    intro i w w' h
    simp only [deleteLoop, Option.some.injEq] at h
    subst h
    simp
  | succ n ih =>
    intro i w w' h
    cases hs : s.m_Shaders[i]? with
    | none => simp [deleteLoop, hs] at h
    | some x =>
      simp only [deleteLoop, hs] at h
      obtain ⟨h1, h2⟩ := ih (i + 1) _ w' h
      have hi : i < s.m_Shaders.length := by
        rcases Nat.lt_or_ge i s.m_Shaders.length with hlt | hge
        · exact hlt
        · rw [List.getElem?_eq_none hge] at hs
          cases hs
      have hx : s.m_Shaders[i] = x := by
        rw [List.getElem?_eq_getElem hi] at hs
        exact Option.some.inj hs
      refine ⟨?_, h2⟩
      rw [h1, List.drop_eq_getElem_cons hi, hx]
      simp

theorem deleteLoop_defined (s : Shader) (n : Nat) :
    ∀ (i : Nat) (w : World), i + n ≤ s.m_Shaders.length → ∃ w', deleteLoop s n i w = some w' := by
  induction n with
  | zero =>
    intro i w _
    exact ⟨w, rfl⟩
  | succ n ih =>
    intro i w h
    have hi : i < s.m_Shaders.length := by omega
    simp only [deleteLoop, List.getElem?_eq_getElem hi]
    exact ih (i + 1) _ (by omega)

theorem match_deleteLoop_some (o : Option World) (s1 s' : Shader) (w' : World)
    (h : (match o with
          | none => none
          | some w6 => some (s1, w6)) = some (s', w')) :
    s1 = s' ∧ o = some w' := by
  cases o with
  | none => simp at h
  | some x =>
    simp only [Option.some.injEq, Prod.mk.injEq] at h
    exact ⟨h.1, by rw [h.2]⟩

theorem CreateProgram_some (env : Env) (s s' : Shader) (w w' : World)
    (h : CreateProgram env s w = some (s', w')) :
    ∃ w1, stageLoop env s.m_NumShaders 0 s w = some (s', w1)
      ∧ w'.shaderFileNames = w1.shaderFileNames
      ∧ ∃ chk, w'.trace = w1.trace
            ++ [Event.glBindAttribLocation s.m_ProgramID 0 "position",
                Event.glBindAttribLocation s.m_ProgramID 1 "texCoord",
                Event.glLinkProgram s.m_ProgramID]
            ++ chk ++ (s'.m_Shaders.take s.m_NumShaders).map Event.glDeleteShader
          ∧ (env.getProgramiv (w1.trace
                ++ [Event.glBindAttribLocation s.m_ProgramID 0 "position",
                    Event.glBindAttribLocation s.m_ProgramID 1 "texCoord",
                    Event.glLinkProgram s.m_ProgramID]) s.m_ProgramID GL_LINK_STATUS = GL_TRUE →
              chk = [Event.glGetProgramiv s.m_ProgramID GL_LINK_STATUS GL_TRUE])
          ∧ (env.getProgramiv (w1.trace
                ++ [Event.glBindAttribLocation s.m_ProgramID 0 "position",
                    Event.glBindAttribLocation s.m_ProgramID 1 "texCoord",
                    Event.glLinkProgram s.m_ProgramID]) s.m_ProgramID GL_LINK_STATUS ≠ GL_TRUE →
              ∃ len text, chk =
                [Event.glGetProgramiv s.m_ProgramID GL_LINK_STATUS
                   (env.getProgramiv (w1.trace
                      ++ [Event.glBindAttribLocation s.m_ProgramID 0 "position",
                          Event.glBindAttribLocation s.m_ProgramID 1 "texCoord",
                          Event.glLinkProgram s.m_ProgramID]) s.m_ProgramID GL_LINK_STATUS),
                 Event.glGetProgramiv s.m_ProgramID GL_INFO_LOG_LENGTH len,
                 Event.glGetProgramInfoLog s.m_ProgramID len text,
                 Event.S3D_LOG "WARNING" (env.StripNewline text ++ " Program " ++ s.m_FileName),
                 Event.glDeleteProgram s.m_ProgramID]) := by
  unfold CreateProgram at h
  cases hl : stageLoop env s.m_NumShaders 0 s w with
  | none => simp [hl] at h
  | some r =>
    obtain ⟨s1, w1⟩ := r
    simp only [hl] at h
    obtain ⟨hp, hf, hn, -, -, -, -, -⟩ := stageLoop_fields env _ 0 s s1 w w1 hl
    rw [hp, hn] at h
    have ht4 : (((w1.emit (Event.glBindAttribLocation s.m_ProgramID 0 "position")).emit
      (Event.glBindAttribLocation s.m_ProgramID 1 "texCoord")).emit
      (Event.glLinkProgram s.m_ProgramID)).trace = w1.trace
            ++ [Event.glBindAttribLocation s.m_ProgramID 0 "position",
                Event.glBindAttribLocation s.m_ProgramID 1 "texCoord",
                Event.glLinkProgram s.m_ProgramID] := by
      simp
    have hn4 : (((w1.emit (Event.glBindAttribLocation s.m_ProgramID 0 "position")).emit
      (Event.glBindAttribLocation s.m_ProgramID 1 "texCoord")).emit
      (Event.glLinkProgram s.m_ProgramID)).shaderFileNames = w1.shaderFileNames := rfl
    generalize ((w1.emit (Event.glBindAttribLocation s.m_ProgramID 0 "position")).emit
      (Event.glBindAttribLocation s.m_ProgramID 1 "texCoord")).emit
      (Event.glLinkProgram s.m_ProgramID) = w4 at h ht4 hn4
    cases hc : CheckProgramError env s1 w4 s.m_ProgramID with
    | none => simp [hc] at h
    | some c =>
      obtain ⟨b, wc⟩ := c
      simp only [hc] at h
      obtain ⟨hs, hd⟩ := match_deleteLoop_some _ _ _ _ h
      subst hs
      obtain ⟨hd1, hd2⟩ := deleteLoop_some _ _ _ _ _ hd
      refine ⟨w1, rfl, ?_⟩
      rw [← ht4]
      rcases CheckProgramError_some env s1 w4 wc _ b hc with
        ⟨hst, hb, hwc⟩ | ⟨hst, hb, len, text, -, hwc⟩
      · subst hb
        subst hwc
        simp only [Bool.false_eq_true, if_false] at hd1 hd2
        refine ⟨by rw [hd2]; exact hn4,
            [Event.glGetProgramiv s.m_ProgramID GL_LINK_STATUS GL_TRUE], ?_, fun _ => rfl,
            fun hne => absurd hst hne⟩
        rw [hd1]
        simp
      · subst hb
        subst hwc
        simp only [if_true] at hd1 hd2
        refine ⟨by rw [hd2]; exact hn4,
            [Event.glGetProgramiv s.m_ProgramID GL_LINK_STATUS
                  (env.getProgramiv w4.trace s.m_ProgramID GL_LINK_STATUS),
                 Event.glGetProgramiv s.m_ProgramID GL_INFO_LOG_LENGTH len,
                 Event.glGetProgramInfoLog s.m_ProgramID len text,
                 Event.S3D_LOG "WARNING" (env.StripNewline text ++ " Program " ++ s.m_FileName),
                 Event.glDeleteProgram s.m_ProgramID], ?_, fun he => absurd he hst,
            fun _ => ⟨len, text, rfl⟩⟩
        rw [hd1, hf]
        simp

theorem CreateProgram_defined (env : Env) (s s1 : Shader) (w w1 : World)
    (h : stageLoop env s.m_NumShaders 0 s w = some (s1, w1))
    (hlk : ∀ t id, env.getProgramiv t id GL_LINK_STATUS = GL_TRUE) :
    ∃ r, CreateProgram env s w = some r := by
  obtain ⟨-, -, hn, -, hl, hb, -, -⟩ := stageLoop_fields env _ 0 s s1 w w1 h
  have hlen : 0 + s1.m_NumShaders ≤ s1.m_Shaders.length := by
    rw [hn, hl]
    rcases Nat.eq_zero_or_pos s.m_NumShaders with h0 | hpos
    · omega
    · exact hb hpos
  unfold CreateProgram
  simp only [h]
  rw [CheckProgramError_ok env s1 _ _ (hlk _ _)]
  simp only [Bool.false_eq_true, if_false]
  obtain ⟨w6, hw6⟩ := deleteLoop_defined s1 s1.m_NumShaders 0
    ((((w1.emit (Event.glBindAttribLocation s1.m_ProgramID 0 "position")).emit
        (Event.glBindAttribLocation s1.m_ProgramID 1 "texCoord")).emit
        (Event.glLinkProgram s1.m_ProgramID)).emit
        (Event.glGetProgramiv s1.m_ProgramID GL_LINK_STATUS GL_TRUE)) hlen
  rw [hw6]
  exact ⟨_, rfl⟩

theorem stageStep_defined (env : Env) (i : Nat) (s : Shader) (w : World) (ty : GLenum)
    (hty : s.m_ShaderTypes[i]? = some ty) (hi : i < s.m_Shaders.length)
    (hn : i < (CompileShader env s w ty).2.2.shaderFileNames.length)
    (hst : ∀ t id, env.getShaderiv t id GL_COMPILE_STATUS = GL_TRUE) :
    ∃ r, stageStep env i s w = some r := by
  obtain ⟨x, hx⟩ := CompileShader_obj env s w ty
  unfold stageStep
  simp only [hty, hx, if_pos hi, List.getElem?_eq_getElem hn]
  rw [CheckShaderError_ok env _ _ _ _ (hst _ _)]
  exact ⟨_, rfl⟩

theorem copyLoop_spec (shaderTypes : List GLenum) (n : Nat) :
    ∀ (i : Nat) (dst : List GLenum), i + n ≤ shaderTypes.length →
      ∃ r, copyLoop shaderTypes n i dst = some r ∧ r.length = dst.length
        ∧ ∀ j, j < dst.length →
            r[j]? = if i ≤ j ∧ j < i + n then shaderTypes[j]? else dst[j]? := by
  induction n with
  | zero =>
    intro i dst _
    refine ⟨dst, rfl, rfl, ?_⟩
    intro j _
    have : ¬ (i ≤ j ∧ j < i + 0) := by omega
    rw [if_neg this]
  | succ n ih =>
    intro i dst h
    have hi : i < shaderTypes.length := by omega
    obtain ⟨r, hr, hl, hj⟩ := ih (i + 1) (dst.set i shaderTypes[i]) (by omega)
    refine ⟨r, ?_, ?_, ?_⟩
    · simp only [copyLoop, List.getElem?_eq_getElem hi]
      exact hr
    · rw [hl, List.length_set]
    · intro j hjl
      rw [hj j (by rw [List.length_set]; exact hjl)]
      by_cases hij : i = j
      · subst hij
        have h1 : ¬ (i + 1 ≤ i ∧ i < i + 1 + n) := by omega
        have h2 : i ≤ i ∧ i < i + (n + 1) := by omega
        rw [if_neg h1, if_pos h2, List.getElem?_set_self hjl, List.getElem?_eq_getElem hi]
      · rw [List.getElem?_set_ne hij]
        by_cases hc : i + 1 ≤ j ∧ j < i + 1 + n
        · have h2 : i ≤ j ∧ j < i + (n + 1) := by omega
          rw [if_pos hc, if_pos h2]
        · have h2 : ¬ (i ≤ j ∧ j < i + (n + 1)) := by omega
          rw [if_neg hc, if_neg h2]

theorem copyLoop_take (env : Env) (shaderTypes : List GLenum) (n : Nat)
    (h : n ≤ shaderTypes.length) :
    copyLoop shaderTypes n 0 ((List.range n).map env.indeterminate)
      = some (shaderTypes.take n) := by
  obtain ⟨r, hr, hl, hj⟩ := copyLoop_spec shaderTypes n 0
    ((List.range n).map env.indeterminate) (by omega)
  rw [hr]
  congr 1
  have hlen : r.length = n := by simp [hl]
  apply List.ext_getElem?
  intro j
  by_cases hjn : j < n
  · rw [hj j (by simpa using hjn), if_pos (by omega), List.getElem?_take_of_lt hjn]
  · rw [List.getElem?_eq_none (by omega), List.getElem?_eq_none]
    rw [List.length_take]
    omega

theorem construct_some (env : Env) (w w1 : World) (fileName : String)
    (shaderTypes : List GLenum) (numShaders : Nat) (s1 : Shader)
    (h : Shader.construct env w fileName shaderTypes numShaders = some (s1, w1)) :
    s1.m_ProgramID = env.createProgram w.trace ∧ s1.m_FileName = fileName
    ∧ s1.m_NumShaders = numShaders
    ∧ s1.m_Shaders = (List.range numShaders).map env.indeterminate
    ∧ copyLoop shaderTypes numShaders 0 ((List.range numShaders).map env.indeterminate)
        = some s1.m_ShaderTypes
    ∧ w1.shaderFileNames = w.shaderFileNames
    ∧ w1.trace = w.trace ++ Event.glCreateProgram (env.createProgram w.trace) ::
        (if env.createProgram w.trace = 0
          then [Event.S3D_WARNING (fileName ++ "Shader Program could not be initialized")]
          else []) := by
  unfold Shader.construct Init at h
  cases hc : copyLoop shaderTypes numShaders 0 ((List.range numShaders).map env.indeterminate) with
  | none => simp [hc] at h
  | some tys =>
    by_cases h0 : env.createProgram w.trace = 0
    · simp [hc, glCreateProgram, h0, S3D_WARNING] at h
      obtain ⟨rfl, rfl⟩ := h
      simp [h0]
    · simp [hc, glCreateProgram, h0] at h
      obtain ⟨rfl, rfl⟩ := h
      simp [h0]

theorem construct_defined (env : Env) (w : World) (fileName : String)
    (shaderTypes : List GLenum) (numShaders : Nat) (h : numShaders ≤ shaderTypes.length) :
    ∃ s1 w1, Shader.construct env w fileName shaderTypes numShaders = some (s1, w1)
      ∧ s1.m_ShaderTypes = shaderTypes.take numShaders := by
  have hex : ∃ r, Shader.construct env w fileName shaderTypes numShaders = some r := by
    unfold Shader.construct Init
    rw [copyLoop_take env shaderTypes numShaders h]
    by_cases h0 : env.createProgram w.trace = 0
    · simp [glCreateProgram, h0]
    · simp [glCreateProgram, h0]
  obtain ⟨r, hr⟩ := hex
  obtain ⟨s1, w1⟩ := r
  obtain ⟨-, -, -, -, hc, -, -⟩ := construct_some env w w1 fileName shaderTypes numShaders s1 hr
  rw [copyLoop_take env shaderTypes numShaders h] at hc
  exact ⟨s1, w1, hr, (Option.some.inj hc).symm⟩

theorem CompileShader_success (env : Env) (s : Shader) (w : World) (ty : GLenum) (ext : String)
    (h : extension ty = some ext) (h0 : env.createShader w.trace ty ≠ 0)
    (hf : ∀ t, env.readFile t (s.m_FileName ++ ext) ≠ none) :
    ∃ cevs, (CompileShader env s w ty).2.2.trace = w.trace ++ cevs
      ∧ (∀ e ∈ cevs, e.isCompile = true ∧ e.isWarning = false)
      ∧ (CompileShader env s w ty).2.2.shaderFileNames
          = w.shaderFileNames ++ [s.m_FileName ++ ext]
      ∧ cevs.filterMap Event.createdShader = [(CompileShader env s w ty).1] := by
  rw [CompileShader_created env s w ty ext h h0]
  cases hr : env.readFile ((w.emit (Event.glCreateShader ty
      (env.createShader w.trace ty))).trace
      ++ [Event.S3D_LOG "INFO" ("File name is " ++ (s.m_FileName ++ ext))])
      (s.m_FileName ++ ext) with
  | none => exact absurd hr (hf _)
  | some c =>
    rw [LoadShader_some env _ _ c hr]
    refine ⟨[Event.glCreateShader ty (env.createShader w.trace ty),
      Event.S3D_LOG "INFO" ("File name is " ++ (s.m_FileName ++ ext)),
      Event.ifstream (s.m_FileName ++ ext) (some c),
      Event.glShaderSource (env.createShader w.trace ty) c,
      Event.glCompileShader (env.createShader w.trace ty)], ?_, ?_, ?_, ?_⟩
    · simp
    · intro e he
      simp only [List.mem_cons, List.mem_singleton, List.not_mem_nil, or_false] at he
      rcases he with rfl | rfl | rfl | rfl | rfl <;> exact ⟨rfl, by simp [Event.isWarning]⟩
    · simp
    · simp [List.filterMap_cons, Event.createdShader]

theorem stageLoop_success (env : Env) (tys : List GLenum) (n : Nat) :
    ∀ (i : Nat) (s : Shader) (w : World), env.succeeds s.m_FileName tys →
      (∀ j, i ≤ j → j < i + n →
        ∃ ty, s.m_ShaderTypes[j]? = some ty ∧ ty ∈ tys ∧ (extension ty).isSome = true) →
      i + n ≤ s.m_Shaders.length → i ≤ w.shaderFileNames.length →
      ∃ s' w' evs, stageLoop env n i s w = some (s', w') ∧ w'.trace = w.trace ++ evs
        ∧ evs.filter Event.isAttach
            = ((s'.m_Shaders.drop i).take n).map (Event.glAttachShader s.m_ProgramID)
        ∧ (∀ e ∈ evs, e.isStage = true ∧ e.isWarning = false)
        ∧ evs.filterMap Event.createdShader = (s'.m_Shaders.drop i).take n := by
  induction n with
  | zero =>
    intro i s w _ _ _ _
    exact ⟨s, w, [], rfl, by simp, by simp, by simp, by simp⟩
  | succ n ih =>
    intro i s w hok htys hsh hnames
    obtain ⟨ty, hty, hmem, hext⟩ := htys i (Nat.le_refl i) (by omega)
    obtain ⟨ext, hext⟩ := Option.isSome_iff_exists.1 hext
    obtain ⟨hcp, hcs, hrf, hcomp, hlk⟩ := hok
    obtain ⟨cevs, hct, hcw, hcn, hcc⟩ := CompileShader_success env s w ty ext hext (hcs _ _)
      (fun t => hrf t ty ext hmem hext)
    have hlen : i < (CompileShader env s w ty).2.2.shaderFileNames.length := by
      rw [hcn, List.length_append]
      simp
      omega
    obtain ⟨r, hr⟩ := stageStep_defined env i s w ty hty (by omega) hlen hcomp
    obtain ⟨s1, w1⟩ := r
    obtain ⟨ty2, hty2, hi, -, hset, hp, hfn, -, htt, hn1, rest, hrt, hrok, -, -⟩ :=
      stageStep_detail env i s s1 w w1 hr
    have htyeq : ty = ty2 := by
      rw [hty] at hty2
      exact Option.some.inj hty2
    subst htyeq
    have hrest := hrok (hcomp _ _)
    have hl1 : s1.m_Shaders.length = s.m_Shaders.length := by rw [hset, List.length_set]
    obtain ⟨s', w', evs2, hloop, ht2, hf2, hw2, hc2⟩ := ih (i + 1) s1 w1
      (by rw [hfn]; exact ⟨hcp, hcs, hrf, hcomp, hlk⟩)
      (fun j hj1 hj2 => by rw [htt]; exact htys j (by omega) (by omega))
      (by rw [hl1]; omega)
      (by rw [hn1, hcn, List.length_append]; simp; omega)
    obtain ⟨-, -, -, -, hl2, -, hj, -⟩ := stageLoop_fields env n (i + 1) s1 s' w1 w' hloop
    have hi' : i < s'.m_Shaders.length := by rw [hl2, hl1]; exact hi
    have hget : s'.m_Shaders[i] = (CompileShader env s w ty).1 := by
      have h1 := hj i (by omega)
      rw [hset, List.getElem?_set_self hi, List.getElem?_eq_getElem hi'] at h1
      exact Option.some.inj h1
    refine ⟨s', w', cevs ++ Event.glGetShaderiv (CompileShader env s w ty).1 GL_COMPILE_STATUS
        (env.getShaderiv (CompileShader env s w ty).2.2.trace (CompileShader env s w ty).1
          GL_COMPILE_STATUS) :: rest ++ evs2, ?_, ?_, ?_, ?_, ?_⟩
    · simp only [stageLoop, hr]
      exact hloop
    · rw [ht2, hrt, hct]
      simp
    · have hc0 : cevs.filter Event.isAttach = [] := by
        rw [List.filter_eq_nil_iff]
        intro e he
        rw [not_isAttach_of_isCompile e (hcw e he).1]
        simp
      rw [List.filter_append, List.filter_append, hc0, hf2, hrest, hp,
        List.drop_eq_getElem_cons hi', hget]
      simp [List.filter_cons, Event.isAttach]
    · intro e he
      simp only [List.mem_append, List.mem_cons] at he
      rcases he with (he | rfl | he) | he
      · exact ⟨isStage_of_isCompile e (hcw e he).1, (hcw e he).2⟩
      · exact ⟨rfl, rfl⟩
      · rw [hrest] at he
        simp only [List.mem_singleton] at he
        subst he
        exact ⟨rfl, rfl⟩
      · exact hw2 e he
    · rw [List.filterMap_append, List.filterMap_append, hcc, hc2, hrest,
        List.drop_eq_getElem_cons hi', hget]
      simp [List.filterMap_cons, Event.createdShader]

theorem stageLoop_split (env : Env) (a b : Nat) :
    ∀ (i : Nat) (s : Shader) (w : World),
      stageLoop env (a + b) i s w
        = (stageLoop env a i s w).bind (fun r => stageLoop env b (i + a) r.1 r.2) := by
  induction a with
  | zero =>
    intro i s w
    simp [stageLoop]
  | succ a ih =>
    intro i s w
    have hab : a + 1 + b = (a + b) + 1 := by omega
    rw [hab]
    cases hstep : stageStep env i s w with
    | none => simp [stageLoop, hstep]
    | some r =>
      simp only [stageLoop, hstep]
      rw [ih (i + 1) r.1 r.2]
      have hia : i + 1 + a = i + (a + 1) := by omega
      rw [hia]

theorem stageLoop_visits (env : Env) (n i : Nat) (s s' : Shader) (w w' : World)
    (h : stageLoop env n i s w = some (s', w')) (k : Nat) (hk : k < n) :
    ∃ sk wk sk' wk', stageLoop env k i s w = some (sk, wk)
      ∧ stageStep env (i + k) sk wk = some (sk', wk')
      ∧ stageLoop env (n - k - 1) (i + k + 1) sk' wk' = some (s', w') := by
  have hn : n = k + (1 + (n - k - 1)) := by omega
  rw [hn, stageLoop_split] at h
  cases h1 : stageLoop env k i s w with
  | none => simp [h1] at h
  | some r =>
    obtain ⟨sk, wk⟩ := r
    simp only [h1, Option.some_bind] at h
    rw [stageLoop_split] at h
    cases h2 : stageLoop env 1 (i + k) sk wk with
    | none => simp [h2] at h
    | some r2 =>
      obtain ⟨sk', wk'⟩ := r2
      simp only [h2, Option.some_bind] at h
      refine ⟨sk, wk, sk', wk', rfl, ?_, h⟩
      cases h3 : stageStep env (i + k) sk wk with
      | none => simp [stageLoop, h3] at h2
      | some r3 =>
        simp only [stageLoop, h3, Option.some.injEq] at h2
        exact congrArg some h2

theorem stageLoop_snoc (env : Env) (k i : Nat) (s sk : Shader) (w wk : World)
    (r : Shader × World) (h1 : stageLoop env k i s w = some (sk, wk))
    (h2 : stageStep env (i + k) sk wk = some r) :
    stageLoop env (k + 1) i s w = some r := by
  rw [stageLoop_split, h1]
  simp [stageLoop, h2]

/-- What `LoadShader` and `CompileShader` do with a file that cannot be opened:
the empty string and exactly one warning "Could not load shader" followed by the
file name (the contents and no warning for a file that can be opened), and, for
a recognized kind whose stage object is created, the empty source submitted and
compiled on the new handle. -/
theorem LoadShader_CompileShader_missing_file (env : Env) :
    (∀ (w : World) (f : String),
        env.readFile (w.trace ++ [Event.S3D_LOG "INFO" ("File name is " ++ f)]) f = none →
        LoadShader env w f =
          ("", { trace := w.trace ++ [Event.S3D_LOG "INFO" ("File name is " ++ f),
                    Event.ifstream f none,
                    Event.S3D_LOG "WARNING" ("Could not load shader " ++ f)],
                 shaderFileNames := w.shaderFileNames ++ [f] })
        ∧ [Event.S3D_LOG "INFO" ("File name is " ++ f), Event.ifstream f none,
            Event.S3D_LOG "WARNING" ("Could not load shader " ++ f)].countP Event.isWarning = 1)
    ∧ (∀ (w : World) (f c : String),
        env.readFile (w.trace ++ [Event.S3D_LOG "INFO" ("File name is " ++ f)]) f = some c →
        LoadShader env w f =
          (c, { trace := w.trace ++ [Event.S3D_LOG "INFO" ("File name is " ++ f),
                    Event.ifstream f (some c)],
                shaderFileNames := w.shaderFileNames ++ [f] })
        ∧ [Event.S3D_LOG "INFO" ("File name is " ++ f),
            Event.ifstream f (some c)].countP Event.isWarning = 0)
    ∧ (∀ (s : Shader) (w : World) (ty : GLenum) (ext : String),
        extension ty = some ext → env.createShader w.trace ty ≠ 0 →
        env.readFile (w.trace ++ [Event.glCreateShader ty (env.createShader w.trace ty),
            Event.S3D_LOG "INFO" ("File name is " ++ (s.m_FileName ++ ext))])
          (s.m_FileName ++ ext) = none →
        (CompileShader env s w ty).1 = env.createShader w.trace ty
        ∧ (CompileShader env s w ty).2.2.trace = w.trace ++
            [Event.glCreateShader ty (env.createShader w.trace ty),
             Event.S3D_LOG "INFO" ("File name is " ++ (s.m_FileName ++ ext)),
             Event.ifstream (s.m_FileName ++ ext) none,
             Event.S3D_LOG "WARNING" ("Could not load shader " ++ (s.m_FileName ++ ext)),
             Event.glShaderSource (env.createShader w.trace ty) "",
             Event.glCompileShader (env.createShader w.trace ty)]) := by
  refine ⟨?_, ?_, ?_⟩
  · intro w f h
    exact ⟨LoadShader_none env w f h, by simp [List.countP_cons, Event.isWarning]⟩
  · intro w f c h
    exact ⟨LoadShader_some env w f c h, by simp [List.countP_cons, Event.isWarning]⟩
  · intro s w ty ext h h0 hf
    rw [CompileShader_created env s w ty ext h h0]
    have hf2 : env.readFile ((w.emit (Event.glCreateShader ty
        (env.createShader w.trace ty))).trace
        ++ [Event.S3D_LOG "INFO" ("File name is " ++ (s.m_FileName ++ ext))])
        (s.m_FileName ++ ext) = none := by
      simpa using hf
    rw [LoadShader_none env _ _ hf2]
    simp

/-- Every run of `CreateProgram` that completes leaves the stored program
handle unchanged; when the driver reported the link failed, the events after
`glLinkProgram` are the status query, the two log queries, one warning that ends
with " Program " followed by the base file name, one `glDeleteProgram` of the
stored handle, and the stage deletions.  A later `Bind` adds the single call
`glUseProgram` of the stored handle. -/
theorem CreateProgram_completed_frame (env : Env) (s s' : Shader) (w w' : World)
    (h : CreateProgram env s w = some (s', w')) :
    s'.m_ProgramID = s.m_ProgramID
    ∧ (∃ pre post, w'.trace = w.trace ++ pre ++ Event.glLinkProgram s.m_ProgramID :: post
        ∧ (∀ e ∈ pre, ∀ q, e ≠ Event.glLinkProgram q ∧ e ≠ Event.glDeleteProgram q)
        ∧ (env.getProgramiv (w.trace ++ pre ++ [Event.glLinkProgram s.m_ProgramID])
              s.m_ProgramID GL_LINK_STATUS ≠ GL_TRUE →
            ∃ len text, post =
              [Event.glGetProgramiv s.m_ProgramID GL_LINK_STATUS
                  (env.getProgramiv (w.trace ++ pre ++ [Event.glLinkProgram s.m_ProgramID])
                    s.m_ProgramID GL_LINK_STATUS),
                Event.glGetProgramiv s.m_ProgramID GL_INFO_LOG_LENGTH len,
                Event.glGetProgramInfoLog s.m_ProgramID len text,
                Event.S3D_LOG "WARNING" (env.StripNewline text ++ " Program " ++ s.m_FileName),
                Event.glDeleteProgram s.m_ProgramID]
              ++ (s'.m_Shaders.take s.m_NumShaders).map Event.glDeleteShader))
    ∧ Bind s' w' = { trace := w'.trace ++ [Event.glUseProgram s.m_ProgramID],
                     shaderFileNames := w'.shaderFileNames } := by
  obtain ⟨w1, hl, -, chk, ht, -, hfail⟩ := CreateProgram_some env s s' w w' h
  obtain ⟨hp, -, -, -, -, -, -, evs, he, hs⟩ := stageLoop_fields env _ 0 s s' w w1 hl
  have hpre : w1.trace ++ [Event.glBindAttribLocation s.m_ProgramID 0 "position",
      Event.glBindAttribLocation s.m_ProgramID 1 "texCoord", Event.glLinkProgram s.m_ProgramID]
      = w.trace ++ (evs ++ [Event.glBindAttribLocation s.m_ProgramID 0 "position",
          Event.glBindAttribLocation s.m_ProgramID 1 "texCoord"])
        ++ [Event.glLinkProgram s.m_ProgramID] := by
    rw [he]
    simp
  rw [hpre] at ht hfail
  refine ⟨hp, ⟨evs ++ [Event.glBindAttribLocation s.m_ProgramID 0 "position",
      Event.glBindAttribLocation s.m_ProgramID 1 "texCoord"],
    chk ++ (s'.m_Shaders.take s.m_NumShaders).map Event.glDeleteShader, ?_, ?_, ?_⟩, ?_⟩
  · rw [ht]
    simp
  · intro e he q
    simp only [List.mem_append, List.mem_cons, List.mem_singleton, List.not_mem_nil,
      or_false] at he
    rcases he with he | rfl | rfl
    · have := hs e he
      constructor <;> (intro hc; subst hc; simp [Event.isStage] at this)
    · exact ⟨by simp, by simp⟩
    · exact ⟨by simp, by simp⟩
  · intro hne
    obtain ⟨len, text, hc⟩ := hfail hne
    exact ⟨len, text, by rw [hc]⟩
  · simp [Bind, World.emit, hp]


/-- In every run of `CreateProgram` that completes, the iteration at position
`i` stores the value of `CompileShader` in `m_Shaders[i]`, queries its compile
status, and attaches it to the program exactly when the status is `GL_TRUE`;
every stage event and the two attribute bindings come before the one call of
`glLinkProgram`. -/
theorem CreateProgram_completed_attach_order (env : Env) (s s' : Shader) (w w' : World)
    (h : CreateProgram env s w = some (s', w')) :
        (∀ i, i < s.m_NumShaders → ∃ si wi si' wi' ty cevs rest post,
            stageLoop env i 0 s w = some (si, wi)
            ∧ stageLoop env (i + 1) 0 s w = some (si', wi')
            ∧ s.m_ShaderTypes[i]? = some ty
            ∧ s'.m_Shaders[i]? = some (CompileShader env si wi ty).1
            ∧ (CompileShader env si wi ty).2.2.trace = wi.trace ++ cevs
            ∧ (∀ e ∈ cevs, e.isAttach = false)
            ∧ wi'.trace = (CompileShader env si wi ty).2.2.trace ++
                Event.glGetShaderiv (CompileShader env si wi ty).1 GL_COMPILE_STATUS
                  (env.getShaderiv (CompileShader env si wi ty).2.2.trace
                    (CompileShader env si wi ty).1 GL_COMPILE_STATUS) :: rest
            ∧ (env.getShaderiv (CompileShader env si wi ty).2.2.trace
                  (CompileShader env si wi ty).1 GL_COMPILE_STATUS = GL_TRUE →
                rest = [Event.glAttachShader s.m_ProgramID (CompileShader env si wi ty).1])
            ∧ (env.getShaderiv (CompileShader env si wi ty).2.2.trace
                  (CompileShader env si wi ty).1 GL_COMPILE_STATUS ≠ GL_TRUE →
                ∀ e ∈ rest, e.isAttach = false)
            ∧ w'.trace = wi'.trace ++ post)
        ∧ ∃ pre post, w'.trace = w.trace ++ pre ++
              [Event.glBindAttribLocation s.m_ProgramID 0 "position",
               Event.glBindAttribLocation s.m_ProgramID 1 "texCoord",
               Event.glLinkProgram s.m_ProgramID] ++ post
            ∧ (∀ e ∈ pre, e.isStage = true) ∧ (∀ e ∈ post, e.isAfterLink = true) := by
  obtain ⟨w1, hl, -, chk, ht, hok, hfail⟩ := CreateProgram_some env s s' w w' h
  constructor
  · intro i hi
    obtain ⟨si, wi, si', wi', h1, h2, h3⟩ := stageLoop_visits env _ 0 s s' w w1 hl i hi
    obtain ⟨hp1, -, -, ht1, -, -, -, -⟩ := stageLoop_fields env _ 0 s si w wi h1
    obtain ⟨-, -, -, -, -, -, hj3, evs3, he3, -⟩ :=
      stageLoop_fields env _ _ si' s' wi' w1 h3
    rw [Nat.zero_add] at h2 hj3
    obtain ⟨ty, hty, hlen, -, hset, -, -, -, -, -, rest, hr, hrok, hrfail, -⟩ :=
      stageStep_detail env i si si' wi wi' h2
    obtain ⟨cevs, hc, hcs⟩ := CompileShader_trace env si wi ty
    refine ⟨si, wi, si', wi', ty, cevs, rest,
      evs3 ++ [Event.glBindAttribLocation s.m_ProgramID 0 "position",
               Event.glBindAttribLocation s.m_ProgramID 1 "texCoord",
               Event.glLinkProgram s.m_ProgramID] ++ chk
        ++ (s'.m_Shaders.take s.m_NumShaders).map Event.glDeleteShader,
      h1, ?_, ?_, ?_, hc, fun e he => not_isAttach_of_isCompile e (hcs e he), hr, ?_, ?_, ?_⟩
    · have := stageLoop_snoc env i 0 s si w wi (si', wi') h1 (by rw [Nat.zero_add]; exact h2)
      exact this
    · rw [← ht1]
      exact hty
    · rw [hj3 i (by omega), hset, List.getElem?_set_self hlen]
    · rw [← hp1]
      exact hrok
    · intro hne
      exact (hrfail hne).2
    · rw [ht, he3]
      simp
  · obtain ⟨-, -, -, -, -, -, -, evs, he, hs⟩ := stageLoop_fields env _ 0 s s' w w1 hl
    refine ⟨evs, chk ++ (s'.m_Shaders.take s.m_NumShaders).map Event.glDeleteShader, ?_, hs, ?_⟩
    · rw [ht, he]
      simp
    · intro e hmem
      rcases List.mem_append.1 hmem with hm | hm
      · by_cases hst : env.getProgramiv (w1.trace ++
            [Event.glBindAttribLocation s.m_ProgramID 0 "position",
             Event.glBindAttribLocation s.m_ProgramID 1 "texCoord",
             Event.glLinkProgram s.m_ProgramID]) s.m_ProgramID GL_LINK_STATUS = GL_TRUE
        · rw [hok hst] at hm
          simp only [List.mem_singleton] at hm
          subst hm
          rfl
        · obtain ⟨len, text, hc⟩ := hfail hst
          rw [hc] at hm
          simp only [List.mem_cons, List.mem_singleton, List.not_mem_nil, or_false] at hm
          rcases hm with rfl | rfl | rfl | rfl | rfl <;> rfl
      · obtain ⟨x, -, rfl⟩ := List.mem_map.1 hm
        rfl


theorem goodEnv_succeeds (fileName : String) (shaderTypes : List GLenum) :
    goodEnv.succeeds fileName shaderTypes := by
  refine ⟨?_, ?_, ?_, ?_, ?_⟩
  · intro t
    simp [goodEnv]
  · intro t ty
    simp [goodEnv]
  · intro t ty ext _ _
    simp [goodEnv]
  · intro t id
    simp [goodEnv, GL_TRUE]
  · intro t id
    simp [goodEnv, GL_TRUE]

/-! ## The claims -/

/-- C1: each of the six recognized stage kinds has its fixed extension, the
mapping is defined exactly on those six kinds, the six extensions are pairwise
distinct, and for a recognized kind whose stage object is created
`CompileShader` hands `m_FileName ++ extension` to `LoadShader`, which records
exactly that name. -/
theorem extension_mapping_and_file_name :
    (extension GL_VERTEX_SHADER = some ".vs"
      ∧ extension GL_FRAGMENT_SHADER = some ".fs"
      ∧ extension GL_TESS_CONTROL_SHADER = some ".tesc"
      ∧ extension GL_TESS_EVALUATION_SHADER = some ".tese"
      ∧ extension GL_GEOMETRY_SHADER = some ".gs"
      ∧ extension GL_COMPUTE_SHADER = some ".glcs")
    ∧ [".vs", ".fs", ".tesc", ".tese", ".gs", ".glcs"].Nodup
    ∧ (∀ ty, (extension ty).isSome = true ↔
        ty ∈ [GL_VERTEX_SHADER, GL_FRAGMENT_SHADER, GL_TESS_CONTROL_SHADER,
              GL_TESS_EVALUATION_SHADER, GL_GEOMETRY_SHADER, GL_COMPUTE_SHADER])
    ∧ ∀ (env : Env) (s : Shader) (w : World) (ty : GLenum) (ext : String),
        extension ty = some ext → env.createShader w.trace ty ≠ 0 →
        CompileShader env s w ty
          = (env.createShader w.trace ty, { s with m_ShaderID := env.createShader w.trace ty },
              ((LoadShader env (w.emit (Event.glCreateShader ty (env.createShader w.trace ty)))
                  (s.m_FileName ++ ext)).2.emit
                (Event.glShaderSource (env.createShader w.trace ty)
                  (LoadShader env (w.emit (Event.glCreateShader ty (env.createShader w.trace ty)))
                    (s.m_FileName ++ ext)).1)).emit
                (Event.glCompileShader (env.createShader w.trace ty)))
        ∧ (CompileShader env s w ty).2.2.shaderFileNames
            = w.shaderFileNames ++ [s.m_FileName ++ ext]
        ∧ ∃ pre post, (CompileShader env s w ty).2.2.trace
            = w.trace ++ pre ++
              [Event.ifstream (s.m_FileName ++ ext)
                (env.readFile (w.trace ++ pre) (s.m_FileName ++ ext))] ++ post
            ∧ (∀ e ∈ pre ++ post, ∀ f c, e ≠ Event.ifstream f c) := by
  refine ⟨by decide, by decide, ?_, ?_⟩
  · intro ty
    unfold extension
    simp only [List.mem_cons, List.mem_singleton, List.not_mem_nil, or_false]
    constructor
    · intro h
      by_contra hne
      simp only [not_or] at hne
      obtain ⟨h1, h2, h3, h4, h5, h6⟩ := hne
      simp [h1, h2, h3, h4, h5, h6] at h
    · intro h
      repeat' split
      all_goals first | rfl | skip
      rename_i h1 h2 h3 h4 h5 h6
      rcases h with h | h | h | h | h | h <;> contradiction
  · intro env s w ty ext h h0
    refine ⟨CompileShader_created env s w ty ext h h0, ?_, ?_⟩
    · rw [CompileShader_names, h]
      simp [h0]
    · rw [CompileShader_created env s w ty ext h h0]
      refine ⟨[Event.glCreateShader ty (env.createShader w.trace ty),
        Event.S3D_LOG "INFO" ("File name is " ++ (s.m_FileName ++ ext))], ?_⟩
      cases hf : env.readFile ((w.emit (Event.glCreateShader ty
          (env.createShader w.trace ty))).trace
          ++ [Event.S3D_LOG "INFO" ("File name is " ++ (s.m_FileName ++ ext))])
          (s.m_FileName ++ ext) with
      | none =>
        rw [LoadShader_none env _ _ hf]
        simp only [emit_trace, List.append_assoc, List.singleton_append] at hf
        refine ⟨[Event.S3D_LOG "WARNING" ("Could not load shader " ++ (s.m_FileName ++ ext)),
          Event.glShaderSource (env.createShader w.trace ty) "",
          Event.glCompileShader (env.createShader w.trace ty)], ?_, ?_⟩
        · simp [hf]
        · simp
      | some c =>
        rw [LoadShader_some env _ _ c hf]
        simp only [emit_trace, List.append_assoc, List.singleton_append] at hf
        refine ⟨[Event.glShaderSource (env.createShader w.trace ty) c,
          Event.glCompileShader (env.createShader w.trace ty)], ?_, ?_⟩
        · simp [hf]
        · simp

/-- Witness of C1: the vertex stage of base name `a` in a fresh process. -/
theorem extension_mapping_and_file_name_witness :
    extension GL_VERTEX_SHADER = some ".vs"
    ∧ goodEnv.createShader constructedWorld.trace GL_VERTEX_SHADER ≠ 0
    ∧ (CompileShader goodEnv vertexObject constructedWorld GL_VERTEX_SHADER).2.2.shaderFileNames
        = constructedWorld.shaderFileNames ++ [vertexObject.m_FileName ++ ".vs"] :=
  ⟨by decide, by decide,
    (extension_mapping_and_file_name.2.2.2 goodEnv vertexObject constructedWorld
      GL_VERTEX_SHADER ".vs" (by decide) (by decide)).2.1⟩

/-- C2, as the code has it: for recognized stage kinds whose files can be read
and which compile and link successfully, the constructor followed by one call of
`CreateProgram` attaches each of the N stage handles once, in order, before the
one call of `glLinkProgram`, and logs no warning; the N stage handles are the
values that the N calls of `glCreateShader` returned, in order. -/
theorem construct_then_CreateProgram_links (env : Env) (w : World) (fileName : String)
    (shaderTypes : List GLenum)
    (hrec : ∀ ty ∈ shaderTypes, (extension ty).isSome = true)
    (hok : env.succeeds fileName shaderTypes) :
    ∃ s' w' stageEvs,
      constructThenCreate env w fileName shaderTypes shaderTypes.length = some (s', w')
      ∧ s'.m_ProgramID = env.createProgram w.trace
      ∧ s'.m_Shaders.length = shaderTypes.length
      ∧ w'.trace = w.trace ++ Event.glCreateProgram (env.createProgram w.trace) :: stageEvs
          ++ [Event.glBindAttribLocation (env.createProgram w.trace) 0 "position",
              Event.glBindAttribLocation (env.createProgram w.trace) 1 "texCoord",
              Event.glLinkProgram (env.createProgram w.trace),
              Event.glGetProgramiv (env.createProgram w.trace) GL_LINK_STATUS GL_TRUE]
          ++ s'.m_Shaders.map Event.glDeleteShader
      ∧ stageEvs.filter Event.isAttach
          = s'.m_Shaders.map (Event.glAttachShader (env.createProgram w.trace))
      ∧ (∀ e ∈ stageEvs, e.isStage = true ∧ e.isWarning = false)
      ∧ (w'.trace.drop w.trace.length).countP Event.isWarning = 0
      ∧ stageEvs.filterMap Event.createdShader = s'.m_Shaders := by
  obtain ⟨s1, w1, hc, hty⟩ := construct_defined env w fileName shaderTypes shaderTypes.length
    (Nat.le_refl _)
  obtain ⟨hp, hf, hn, hsh, -, hnm, ht1⟩ :=
    construct_some env w w1 fileName shaderTypes shaderTypes.length s1 hc
  have hcp0 : env.createProgram w.trace ≠ 0 := hok.1 _
  rw [if_neg hcp0] at ht1
  rw [List.take_length] at hty
  have hlen1 : s1.m_Shaders.length = shaderTypes.length := by
    rw [hsh]
    simp
  obtain ⟨s', w2, evs, hloop, ht2, hfil, hev, hcr⟩ := stageLoop_success env shaderTypes
    shaderTypes.length 0 s1 w1 (by rw [hf]; exact hok)
    (fun j _ hj => by
      have hj' : j < shaderTypes.length := by omega
      refine ⟨shaderTypes[j], ?_, List.getElem_mem hj', hrec _ (List.getElem_mem hj')⟩
      rw [hty, List.getElem?_eq_getElem hj'])
    (by rw [hlen1]; omega) (Nat.zero_le _)
  obtain ⟨-, -, -, -, hl2, -, -, -⟩ := stageLoop_fields env _ 0 s1 s' w1 w2 hloop
  have hloop' : stageLoop env s1.m_NumShaders 0 s1 w1 = some (s', w2) := by
    rw [hn]
    exact hloop
  obtain ⟨r, hr⟩ := CreateProgram_defined env s1 s' w1 w2 hloop' hok.2.2.2.2
  obtain ⟨s3, w3⟩ := r
  obtain ⟨w4, hl4, -, chk, ht3, hchk, -⟩ := CreateProgram_some env s1 s3 w1 w3 hr
  rw [hloop'] at hl4
  simp only [Option.some.injEq, Prod.mk.injEq] at hl4
  obtain ⟨rfl, rfl⟩ := hl4
  have hchk' := hchk (hok.2.2.2.2 _ _)
  have hlen' : s'.m_Shaders.length = shaderTypes.length := by rw [hl2, hlen1]
  have htake : s'.m_Shaders.take s1.m_NumShaders = s'.m_Shaders := by
    rw [hn, ← hlen', List.take_length]
  have hdrop : (s'.m_Shaders.drop 0).take shaderTypes.length = s'.m_Shaders := by
    rw [List.drop_zero, ← hlen', List.take_length]
  obtain ⟨hp3, -, -, -, -, -, -, -⟩ := stageLoop_fields env _ 0 s1 s' w1 w2 hloop
  have htrace : w3.trace = w.trace ++ Event.glCreateProgram (env.createProgram w.trace) :: evs
          ++ [Event.glBindAttribLocation (env.createProgram w.trace) 0 "position",
              Event.glBindAttribLocation (env.createProgram w.trace) 1 "texCoord",
              Event.glLinkProgram (env.createProgram w.trace),
              Event.glGetProgramiv (env.createProgram w.trace) GL_LINK_STATUS GL_TRUE]
          ++ s'.m_Shaders.map Event.glDeleteShader := by
    rw [ht3, hchk', htake, ht2, ht1, hp]
    simp
  refine ⟨s', w3, evs, ?_, by rw [hp3, hp], hlen', htrace, ?_, hev, ?_, by rw [hcr, hdrop]⟩
  · simp only [constructThenCreate, hc]
    exact hr
  · rw [hfil, hdrop, hp]
  · rw [htrace, List.append_assoc, List.append_assoc, List.drop_left, List.countP_eq_zero]
    intro e he
    rcases List.mem_append.1 he with h1 | h2
    · rcases List.mem_cons.1 h1 with rfl | h1
      · simp [Event.isWarning]
      · simp [(hev e h1).2]
    · rcases List.mem_append.1 h2 with h2 | h2
      · simp only [List.mem_cons, List.mem_singleton, List.not_mem_nil, or_false] at h2
        rcases h2 with rfl | rfl | rfl | rfl <;> simp [Event.isWarning]
      · obtain ⟨x, -, rfl⟩ := List.mem_map.1 h2
        simp [Event.isWarning]

/-- Witness of C2 as amended: a vertex and a fragment stage under `goodEnv`. -/
theorem construct_then_CreateProgram_links_witness :
    (∀ ty ∈ [GL_VERTEX_SHADER, GL_FRAGMENT_SHADER], (extension ty).isSome = true)
    ∧ goodEnv.succeeds "a" [GL_VERTEX_SHADER, GL_FRAGMENT_SHADER]
    ∧ ∃ (s' : Shader) (w' : World) (stageEvs : List Event),
        constructThenCreate goodEnv freshWorld "a" [GL_VERTEX_SHADER, GL_FRAGMENT_SHADER] 2
          = some (s', w')
        ∧ s'.m_Shaders.length = 2
        ∧ stageEvs.filter Event.isAttach
            = s'.m_Shaders.map (Event.glAttachShader (goodEnv.createProgram freshWorld.trace))
        ∧ (w'.trace.drop freshWorld.trace.length).countP Event.isWarning = 0 := by
  refine ⟨by decide, goodEnv_succeeds _ _, ?_⟩
  obtain ⟨s', w', stageEvs, h1, -, h2, -, h3, -, h4, -⟩ :=
    construct_then_CreateProgram_links goodEnv freshWorld "a"
      [GL_VERTEX_SHADER, GL_FRAGMENT_SHADER] (by decide) (goodEnv_succeeds _ _)
  exact ⟨s', w', stageEvs, h1, h2, h3, h4⟩

/-- Counterexample to C2 as stated: under a driver and a file system in which
everything succeeds, the constructor alone makes the one call
`glCreateProgram`; it attaches no stage and does not link. -/
theorem constructor_alone_does_not_link :
    (∀ ty ∈ [GL_VERTEX_SHADER], (extension ty).isSome = true)
    ∧ goodEnv.succeeds "a" [GL_VERTEX_SHADER]
    ∧ Shader.construct goodEnv freshWorld "a" [GL_VERTEX_SHADER] 1
        = some (vertexObject, { trace := [Event.glCreateProgram 1], shaderFileNames := [] })
    ∧ (Shader.construct goodEnv freshWorld "a" [GL_VERTEX_SHADER] 1).map
        (fun r => (r.2.trace.countP Event.isAttach, r.2.trace.count (Event.glLinkProgram 1)))
        = some (0, 0) :=
  ⟨by decide, goodEnv_succeeds _ _, by decide, by decide⟩

/-- C3, the code at the failing input: in a process whose global name list
holds one earlier name, a stage list that is the one unrecognized kind 0 makes
`CreateProgram` store the value 1, query the compile status of 1 and, the
driver answering `GL_TRUE`, attach 1 to the program and later delete it; with
the empty stage list none of these calls is made.  In a fresh process the same
stage list reads `shaderFileNames[0]` out of range. -/
theorem unrecognized_kind_is_queried_and_attached :
    (constructThenCreate goodEnv laterWorld "b" [0] 1).map
        (fun r => (r.1.m_Shaders, r.2.trace.drop laterWorld.trace.length))
      = some ([1],
          [Event.glCreateProgram 15,
           Event.fprintf_stderr "Not a recognized shader type",
           Event.glGetShaderiv 1 GL_COMPILE_STATUS 1,
           Event.glAttachShader 15 1,
           Event.glBindAttribLocation 15 0 "position",
           Event.glBindAttribLocation 15 1 "texCoord",
           Event.glLinkProgram 15,
           Event.glGetProgramiv 15 GL_LINK_STATUS 1,
           Event.glDeleteShader 1])
    ∧ (constructThenCreate goodEnv laterWorld "b" [] 0).map
        (fun r => (r.1.m_Shaders, r.2.trace.drop laterWorld.trace.length))
      = some ([],
          [Event.glCreateProgram 15,
           Event.glBindAttribLocation 15 0 "position",
           Event.glBindAttribLocation 15 1 "texCoord",
           Event.glLinkProgram 15,
           Event.glGetProgramiv 15 GL_LINK_STATUS 1])
    ∧ constructThenCreate goodEnv freshWorld "b" [0] 1 = none := by
  decide

/-- C4, the code at the failing input: base name `a`, a vertex and a fragment
stage, the file `a.vs` missing, and a driver that reports the compilation failed
with the info-log length 0.  `LoadShader` and `CompileShader` do what the claim
says (one warning "Could not load shader a.vs", the empty source submitted and
compiled on the new handle 2), but the error check on that handle does not
return, so the iteration and `CreateProgram` do not return and the fragment
stage is never processed.  With the info-log length 13 the same construction
processes both stages. -/
theorem missing_file_and_empty_log_stop_the_loop :
    Shader.construct missingVertexFileEnv freshWorld "a"
        [GL_VERTEX_SHADER, GL_FRAGMENT_SHADER] 2 = some (pairObject, constructedWorld)
    ∧ CompileShader missingVertexFileEnv pairObject constructedWorld GL_VERTEX_SHADER
        = (2, { pairObject with m_ShaderID := 2 }, compiledEmptyWorld)
    ∧ missingVertexFileEnv.getShaderiv compiledEmptyWorld.trace 2 GL_COMPILE_STATUS = 0
    ∧ missingVertexFileEnv.getShaderiv
        (compiledEmptyWorld.trace ++ [Event.glGetShaderiv 2 GL_COMPILE_STATUS 0]) 2
        GL_INFO_LOG_LENGTH = 0
    ∧ CheckShaderError missingVertexFileEnv
        { pairObject with m_Shaders := [2, 0], m_ShaderID := 2 } compiledEmptyWorld 2 "a.vs"
        = none
    ∧ stageStep missingVertexFileEnv 0 pairObject constructedWorld = none
    ∧ constructThenCreate missingVertexFileEnv freshWorld "a"
        [GL_VERTEX_SHADER, GL_FRAGMENT_SHADER] 2 = none
    ∧ (constructThenCreate missingVertexFileLogEnv freshWorld "a"
        [GL_VERTEX_SHADER, GL_FRAGMENT_SHADER] 2).map (fun r => (r.1.m_Shaders, r.2.trace))
      = some ([2, 12],
          [Event.glCreateProgram 1,
           Event.glCreateShader GL_VERTEX_SHADER 2,
           Event.S3D_LOG "INFO" "File name is a.vs",
           Event.ifstream "a.vs" none,
           Event.S3D_LOG "WARNING" "Could not load shader a.vs",
           Event.glShaderSource 2 "",
           Event.glCompileShader 2,
           Event.glGetShaderiv 2 GL_COMPILE_STATUS 0,
           Event.glGetShaderiv 2 GL_INFO_LOG_LENGTH 13,
           Event.glGetShaderInfoLog 2 13 "syntax error",
           Event.S3D_LOG "WARNING" "syntax error in a.vs",
           Event.glCreateShader GL_FRAGMENT_SHADER 12,
           Event.S3D_LOG "INFO" "File name is a.fs",
           Event.ifstream "a.fs" (some "void main();"),
           Event.glShaderSource 12 "void main();",
           Event.glCompileShader 12,
           Event.glGetShaderiv 12 GL_COMPILE_STATUS 0,
           Event.glGetShaderiv 12 GL_INFO_LOG_LENGTH 13,
           Event.glGetShaderInfoLog 12 13 "syntax error",
           Event.S3D_LOG "WARNING" "syntax error in a.fs",
           Event.glBindAttribLocation 1 0 "position",
           Event.glBindAttribLocation 1 1 "texCoord",
           Event.glLinkProgram 1,
           Event.glGetProgramiv 1 GL_LINK_STATUS 1,
           Event.glDeleteShader 2,
           Event.glDeleteShader 12]) := by
  decide

/-- C5, the code at the failing input: in a process whose global name list
holds the earlier name `a.vs`, an object with base name `b` and one fragment
stage loads `b.fs`, and the warning for its failed compilation names `a.vs`. -/
theorem compile_warning_names_earlier_file :
    (constructThenCreate compileFailEnv laterWorld "b" [GL_FRAGMENT_SHADER] 1).map
        (fun r => (r.2.shaderFileNames, r.2.trace.drop laterWorld.trace.length))
      = some (["a.vs", "b.fs"],
          [Event.glCreateProgram 15,
           Event.glCreateShader GL_FRAGMENT_SHADER 16,
           Event.S3D_LOG "INFO" "File name is b.fs",
           Event.ifstream "b.fs" (some "void main();"),
           Event.glShaderSource 16 "void main();",
           Event.glCompileShader 16,
           Event.glGetShaderiv 16 GL_COMPILE_STATUS 0,
           Event.glGetShaderiv 16 GL_INFO_LOG_LENGTH 13,
           Event.glGetShaderInfoLog 16 13 "syntax error",
           Event.S3D_LOG "WARNING" "syntax error in a.vs",
           Event.glBindAttribLocation 15 0 "position",
           Event.glBindAttribLocation 15 1 "texCoord",
           Event.glLinkProgram 15,
           Event.glGetProgramiv 15 GL_LINK_STATUS 1,
           Event.glDeleteShader 16]) := by
  decide

/-- C6, as the code has it: in every lifecycle the destructor issues one
`glDeleteProgram` of the handle that `glCreateProgram` returned, as the last
call of the lifecycle; when `CreateProgram` is not called, or the driver reports
the link successful, no other `glDeleteProgram` occurs in the lifecycle. -/
theorem destructor_releases_program (env : Env) (w w' : World) (fileName : String)
    (shaderTypes : List GLenum) (numShaders : Nat) (callCreateProgram : Bool)
    (h : lifecycle env w fileName shaderTypes numShaders callCreateProgram = some w') :
    ∃ evs, w'.trace = w.trace ++ Event.glCreateProgram (env.createProgram w.trace) :: evs
          ++ [Event.glDeleteProgram (env.createProgram w.trace)]
      ∧ ((∀ st, Event.glGetProgramiv (env.createProgram w.trace) GL_LINK_STATUS st ∈ evs →
            st = GL_TRUE) →
          ∀ q, Event.glDeleteProgram q ∉ evs) := by
  unfold lifecycle at h
  cases hc : Shader.construct env w fileName shaderTypes numShaders with
  | none => simp [hc] at h
  | some r =>
    obtain ⟨s1, w1⟩ := r
    obtain ⟨hp, hf, -, -, -, -, ht1⟩ := construct_some env w w1 fileName shaderTypes numShaders s1 hc
    simp only [hc] at h
    cases callCreateProgram with
    | false =>
      simp only [Bool.false_eq_true, if_false, Option.some.injEq] at h
      subst h
      refine ⟨(if env.createProgram w.trace = 0
          then [Event.S3D_WARNING (fileName ++ "Shader Program could not be initialized")]
          else []), ?_, ?_⟩
      · simp only [Shader.destruct, emit_trace, ht1, hp]
      · intro _ q hq
        split at hq <;> simp at hq
    | true =>
      simp only [if_true] at h
      cases hcp : CreateProgram env s1 w1 with
      | none => simp [hcp] at h
      | some r2 =>
        obtain ⟨s2, w2⟩ := r2
        simp only [hcp, Option.some.injEq] at h
        subst h
        obtain ⟨w3, hl, -, chk, ht, hok, hfail⟩ := CreateProgram_some env s1 s2 w1 w2 hcp
        obtain ⟨hp2, -, -, -, -, -, -, evs, he, hs⟩ := stageLoop_fields env _ 0 s1 s2 w1 w3 hl
        rw [hp] at ht hok hfail
        refine ⟨(if env.createProgram w.trace = 0
            then [Event.S3D_WARNING (fileName ++ "Shader Program could not be initialized")]
            else []) ++ evs
          ++ [Event.glBindAttribLocation (env.createProgram w.trace) 0 "position",
              Event.glBindAttribLocation (env.createProgram w.trace) 1 "texCoord",
              Event.glLinkProgram (env.createProgram w.trace)]
          ++ chk ++ (s2.m_Shaders.take s1.m_NumShaders).map Event.glDeleteShader, ?_, ?_⟩
        · simp only [Shader.destruct, emit_trace, ht, he, ht1, hp2, hp]
          simp
        · intro hlink q hq
          by_cases hst : env.getProgramiv (w3.trace ++
              [Event.glBindAttribLocation (env.createProgram w.trace) 0 "position",
               Event.glBindAttribLocation (env.createProgram w.trace) 1 "texCoord",
               Event.glLinkProgram (env.createProgram w.trace)])
              (env.createProgram w.trace) GL_LINK_STATUS = GL_TRUE
          · rw [hok hst] at hq
            simp only [List.mem_append, List.mem_cons, List.mem_singleton, List.not_mem_nil,
              or_false, List.mem_map] at hq
            rcases hq with (((hq | hq) | hq) | hq) | hq
            · split at hq <;> simp at hq
            · have := hs _ hq
              simp [Event.isStage] at this
            · rcases hq with hq | hq | hq <;> cases hq
            · cases hq
            · obtain ⟨x, -, hx⟩ := hq
              cases hx
          · obtain ⟨len, text, hc2⟩ := hfail hst
            exact absurd (hlink _ (by rw [hc2]; simp)) hst

/-- Witness of C6 as amended: a lifecycle in which the link succeeds. -/
theorem destructor_releases_program_witness :
    lifecycle goodEnv freshWorld "a" [GL_VERTEX_SHADER] 1 true = some goodLifecycleEnd
    ∧ ∃ evs, goodLifecycleEnd.trace
          = freshWorld.trace ++ Event.glCreateProgram (goodEnv.createProgram freshWorld.trace)
              :: evs ++ [Event.glDeleteProgram (goodEnv.createProgram freshWorld.trace)]
        ∧ ((∀ st, Event.glGetProgramiv (goodEnv.createProgram freshWorld.trace)
              GL_LINK_STATUS st ∈ evs → st = GL_TRUE) →
            ∀ q, Event.glDeleteProgram q ∉ evs) :=
  ⟨by decide,
   destructor_releases_program goodEnv freshWorld goodLifecycleEnd "a" [GL_VERTEX_SHADER] 1 true
     (by decide)⟩

/-- Counterexample to C6 as stated: when the link fails, the lifecycle of one
object releases its program handle twice, once in `CreateProgram` and once in
the destructor. -/
theorem program_released_twice_on_link_failure :
    lifecycle linkFailEnv freshWorld "b" [GL_VERTEX_SHADER] 1 true
      = some { trace := [Event.glCreateProgram 1,
                Event.glCreateShader GL_VERTEX_SHADER 2,
                Event.S3D_LOG "INFO" "File name is b.vs",
                Event.ifstream "b.vs" (some "void main();"),
                Event.glShaderSource 2 "void main();",
                Event.glCompileShader 2,
                Event.glGetShaderiv 2 GL_COMPILE_STATUS 1,
                Event.glAttachShader 1 2,
                Event.glBindAttribLocation 1 0 "position",
                Event.glBindAttribLocation 1 1 "texCoord",
                Event.glLinkProgram 1,
                Event.glGetProgramiv 1 GL_LINK_STATUS 0,
                Event.glGetProgramiv 1 GL_INFO_LOG_LENGTH 11,
                Event.glGetProgramInfoLog 1 11 "link error",
                Event.S3D_LOG "WARNING" "link error Program b",
                Event.glDeleteProgram 1,
                Event.glDeleteShader 2,
                Event.glDeleteProgram 1],
               shaderFileNames := ["b.vs"] }
    ∧ (lifecycle linkFailEnv freshWorld "b" [GL_VERTEX_SHADER] 1 true).map
        (fun w => w.trace.count (Event.glDeleteProgram 1)) = some 2 := by
  decide

/-- C7, the code at the failing input: for a stage list that is the one
unrecognized kind 0, `CreateProgram` calls `glDeleteShader` on the value 1,
which no call of `glCreateShader` in the whole history of the process has
returned. -/
theorem deleted_handle_never_created :
    (constructThenCreate compileFailEnv laterWorld "b" [0] 1).map
        (fun r => (r.2.trace.drop laterWorld.trace.length,
          r.2.trace.any (Event.returnsShader 1)))
      = some ([Event.glCreateProgram 15,
           Event.fprintf_stderr "Not a recognized shader type",
           Event.glGetShaderiv 1 GL_COMPILE_STATUS 0,
           Event.glGetShaderiv 1 GL_INFO_LOG_LENGTH 13,
           Event.glGetShaderInfoLog 1 13 "syntax error",
           Event.S3D_LOG "WARNING" "syntax error in a.vs",
           Event.glBindAttribLocation 15 0 "position",
           Event.glBindAttribLocation 15 1 "texCoord",
           Event.glLinkProgram 15,
           Event.glGetProgramiv 15 GL_LINK_STATUS 1,
           Event.glDeleteShader 1], false) := by
  decide

/-- C8: `Init` returns false exactly when the driver's program allocation
returns the handle 0, and the constructor emits the one warning
"Shader Program could not be initialized", prefixed by the base file name,
exactly in that case; in both cases the stage kinds are the caller's first
`numShaders` kinds in order and the stage-handle array has `numShaders`
entries. -/
theorem Init_result_and_constructor_warning (env : Env) (s : Shader) (w : World)
    (fileName : String) (shaderTypes : List GLenum) (numShaders : Nat)
    (h : numShaders ≤ shaderTypes.length) :
    (∃ b s1 w1, Init env s w numShaders shaderTypes = some (b, s1, w1)
        ∧ (b = false ↔ env.createProgram w.trace = 0)
        ∧ s1.m_ProgramID = env.createProgram w.trace
        ∧ s1.m_ShaderTypes = shaderTypes.take numShaders
        ∧ s1.m_Shaders.length = numShaders)
    ∧ (∃ s2 w2, Shader.construct env w fileName shaderTypes numShaders = some (s2, w2)
        ∧ w2.trace = w.trace ++ Event.glCreateProgram (env.createProgram w.trace) ::
            (if env.createProgram w.trace = 0
              then [Event.S3D_WARNING (fileName ++ "Shader Program could not be initialized")]
              else [])
        ∧ (Event.glCreateProgram (env.createProgram w.trace) ::
            (if env.createProgram w.trace = 0
              then [Event.S3D_WARNING (fileName ++ "Shader Program could not be initialized")]
              else [])).countP Event.isWarning
            = (if env.createProgram w.trace = 0 then 1 else 0)
        ∧ w2.shaderFileNames = w.shaderFileNames
        ∧ s2.m_FileName = fileName ∧ s2.m_NumShaders = numShaders
        ∧ s2.m_ProgramID = env.createProgram w.trace
        ∧ s2.m_ShaderTypes = shaderTypes.take numShaders
        ∧ s2.m_ShaderTypes.length = numShaders
        ∧ s2.m_Shaders.length = numShaders) := by
  have hlt : (shaderTypes.take numShaders).length = numShaders := by
    rw [List.length_take]
    omega
  constructor
  · unfold Init
    rw [copyLoop_take env shaderTypes numShaders h]
    by_cases h0 : env.createProgram w.trace = 0
    · simp [glCreateProgram, h0]
    · simp [glCreateProgram, h0]
  · unfold Shader.construct Init
    rw [copyLoop_take env shaderTypes numShaders h]
    by_cases h0 : env.createProgram w.trace = 0
    · simp [glCreateProgram, h0, S3D_WARNING, hlt, Event.isWarning, List.countP_cons]
      exact ⟨_, _, ⟨rfl, rfl⟩, by simp, rfl, rfl, rfl, rfl, rfl, hlt, by simp⟩
    · simp [glCreateProgram, h0, hlt, Event.isWarning, List.countP_cons]
      exact ⟨_, _, ⟨rfl, rfl⟩, by simp, rfl, rfl, rfl, rfl, rfl, hlt, by simp⟩

/-- Witness of C8: two stage kinds, a driver whose allocation succeeds. -/
theorem Init_result_and_constructor_warning_witness :
    ∃ s2 w2, Shader.construct goodEnv freshWorld "b" [GL_VERTEX_SHADER, GL_FRAGMENT_SHADER] 2
        = some (s2, w2)
      ∧ w2.trace = [Event.glCreateProgram 1]
      ∧ s2.m_ShaderTypes = [GL_VERTEX_SHADER, GL_FRAGMENT_SHADER]
      ∧ s2.m_Shaders.length = 2 := by
  obtain ⟨s2, w2, h1, h2, -, -, -, -, -, h3, -, h4⟩ :=
    (Init_result_and_constructor_warning goodEnv
      { m_FileName := "b", m_NumShaders := 2, m_ShaderTypes := [], m_Shaders := [],
        m_ProgramID := 0, m_ShaderID := 0 }
      freshWorld "b" [GL_VERTEX_SHADER, GL_FRAGMENT_SHADER] 2 (by decide)).2
  exact ⟨s2, w2, h1, h2, h3, h4⟩

/-- C9, the code at the failing input: one vertex stage that compiles, and a
driver that reports the link failed with the info-log length 0.  `CreateProgram`
reaches `glLinkProgram` in the state `linkedWorld`; the error check on the
program does not return, so `CreateProgram` does not return: no link diagnostic
is logged and no `glDeleteProgram` is issued.  With the info-log length 11 the
same call logs the diagnostic and releases the program. -/
theorem link_failure_with_empty_log_is_not_reported :
    (stageLoop emptyProgramLogEnv 1 0 vertexObject constructedWorld).map
        (fun r => (r.1, r.2.shaderFileNames,
          r.2.trace ++ [Event.glBindAttribLocation 1 0 "position",
            Event.glBindAttribLocation 1 1 "texCoord", Event.glLinkProgram 1]))
      = some (linkedObject, linkedWorld.shaderFileNames, linkedWorld.trace)
    ∧ emptyProgramLogEnv.getProgramiv linkedWorld.trace 1 GL_LINK_STATUS = 0
    ∧ emptyProgramLogEnv.getProgramiv
        (linkedWorld.trace ++ [Event.glGetProgramiv 1 GL_LINK_STATUS 0]) 1
        GL_INFO_LOG_LENGTH = 0
    ∧ CheckProgramError emptyProgramLogEnv linkedObject linkedWorld 1 = none
    ∧ CreateProgram emptyProgramLogEnv vertexObject constructedWorld = none
    ∧ CreateProgram linkFailEnv vertexObject constructedWorld
        = some (linkedObject, linkFailCreateEnd) := by
  decide

/-- C10, the code at the failing input: a driver that reports the compilation
of stage 2 failed with the info-log length 0.  The status is not `GL_TRUE`, and
the error check neither returns true nor emits a warning: it does not return,
and neither does `CreateProgram`.  With the info-log length 13 the same check
returns true after one warning. -/
theorem error_check_does_not_return_on_empty_log :
    CompileShader emptyShaderLogEnv vertexObject constructedWorld GL_VERTEX_SHADER
      = (2, { vertexObject with m_ShaderID := 2 }, compiledWorld)
    ∧ emptyShaderLogEnv.getShaderiv compiledWorld.trace 2 GL_COMPILE_STATUS = 0
    ∧ emptyShaderLogEnv.getShaderiv
        (compiledWorld.trace ++ [Event.glGetShaderiv 2 GL_COMPILE_STATUS 0]) 2
        GL_INFO_LOG_LENGTH = 0
    ∧ CheckShaderError emptyShaderLogEnv linkedObject compiledWorld 2 "a.vs" = none
    ∧ CreateProgram emptyShaderLogEnv vertexObject constructedWorld = none
    ∧ CheckShaderError compileFailEnv linkedObject compiledWorld 2 "a.vs"
      = some (true,
          { trace := compiledWorld.trace ++
              [Event.glGetShaderiv 2 GL_COMPILE_STATUS 0,
               Event.glGetShaderiv 2 GL_INFO_LOG_LENGTH 13,
               Event.glGetShaderInfoLog 2 13 "syntax error",
               Event.S3D_LOG "WARNING" "syntax error in a.vs"],
            shaderFileNames := compiledWorld.shaderFileNames }) := by
  decide

end Sabre3D
